import Mathlib

/-!
Verification development for the SmartBackend school-management service.

The Python sources are shallowly embedded: each Flask handler becomes a pure
Lean function from the request data and an explicit database state (lists of
documents) to a response value and the successor state.  Randomness (password
and id generation), wall-clock time and the bcrypt primitives are passed in as
explicit parameters, mirroring where the source calls `random`,
`datetime.utcnow()` and `bcrypt`.  MongoDB `update_one` with `$set` is modelled
with its real modified-count semantics: a matched document counts as modified
only if at least one written field differs from the stored value.
-/

/-! ## String helpers mirroring the Python primitives -/

/-- ASCII lower-casing of a single character, as `str.lower` acts on ASCII. -/
def lowerAscii (c : Char) : Char :=
  if 'A' ≤ c ∧ c ≤ 'Z' then Char.ofNat (c.toNat + 32) else c

/-- ASCII upper-casing of a single character, as `str.upper` acts on ASCII. -/
def upperAscii (c : Char) : Char :=
  if 'a' ≤ c ∧ c ≤ 'z' then Char.ofNat (c.toNat - 32) else c

/-- `str.lower` on ASCII strings. -/
def lowerStr (s : String) : String := String.mk (s.toList.map lowerAscii)

/-- `str.upper` on ASCII strings. -/
def upperStr (s : String) : String := String.mk (s.toList.map upperAscii)

/-- `str.strip` on a character list: drop whitespace at both ends. -/
def pyStripList (l : List Char) : List Char :=
  ((l.dropWhile Char.isWhitespace).reverse.dropWhile Char.isWhitespace).reverse

/-- Python `str.strip()`. -/
def pyStrip (s : String) : String := String.mk (pyStripList s.toList)

/-- Characters admitted by the local part of the email regex
`[a-zA-Z0-9._%+-]`. -/
def isLocalChar (c : Char) : Bool :=
  c.isAlpha || c.isDigit || c == '.' || c == '_' || c == '%' || c == '+' || c == '-'

/-- Characters admitted by the domain part of the email regex
`[a-zA-Z0-9.-]`. -/
def isDomainChar (c : Char) : Bool :=
  c.isAlpha || c.isDigit || c == '.' || c == '-'

/-- Full match of the shared email pattern
`[a-zA-Z0-9._%+-]+@[a-zA-Z0-9.-]+\.[a-zA-Z]\x7b2,\x7d` used by
`validate_email` in `school_contact.py`, `students.py` and `teachers.py`:
a nonempty local part, one at-sign, a nonempty domain part, a dot, and an
alphabetic top-level domain of length at least two.  Because the final
component may contain no dot, the split is at the last dot of the domain. -/
def validEmailList (l : List Char) : Bool :=
  match l.span (fun c => c != '@') with
  | (loc, '@' :: dom) =>
    (!loc.isEmpty) && loc.all isLocalChar &&
    (match dom.reverse.span (fun c => c != '.') with
     | (tldRev, '.' :: bodyRev) =>
       (!bodyRev.isEmpty) && bodyRev.all isDomainChar &&
       decide (2 ≤ tldRev.length) && tldRev.all Char.isAlpha
     | _ => false)
  | _ => false

/-- `validate_email` from the route modules. -/
def validate_email (s : String) : Bool := validEmailList s.toList

/-! ## Contact requests (`school_contact.py`) -/

/-- A document of the `school_contacts` collection.  `id` stands for the
Mongo `_id`; timestamps are abstract instants (`Nat`). -/
structure Contact where
  id : Nat
  school_name : String
  principal_name : String
  email : String
  phone : String
  school_type : String
  student_count : String
  address : String
  city : String
  state : String
  country : String
  website : String
  message : String
  preferred_contact : String
  timeline : String
  grades : List String
  interests : List String
  is_approved : Bool
  is_active : Bool
  priority_level : String
  source : String
  accepted_plan : Option String
  admin_notes : Option String
  initial_password : Option String
  rejection_reason : Option String
  review_notes : Option String
  approved_at : Option Nat
  rejected_at : Option Nat
  activated_at : Option Nat
  deactivated_at : Option Nat
  created_at : Nat
  updated_at : Nat
  deriving DecidableEq, Repr

/-- The JSON body accepted by `POST /school-contact`.  The five required keys
are modelled as present (a missing key and an empty value take the same
failure path in the handler); the optional keys carry their `data.get`
defaults when absent. -/
structure ContactForm where
  schoolName : String
  principalName : String
  email : String
  phone : String
  schoolType : String
  studentCount : String
  address : String
  city : String
  state : String
  country : String
  website : String
  message : String
  preferredContact : String
  timeline : String
  grades : List String
  interests : List String
  deriving DecidableEq, Repr

/-- The required-field scan of `create_school_contact`: names whose stripped
value is empty, in the order of `required_fields`. -/
def requiredMissing (d : ContactForm) : List String :=
  ([("schoolName", d.schoolName), ("principalName", d.principalName),
    ("email", d.email), ("phone", d.phone),
    ("schoolType", d.schoolType)].filter (fun kv => pyStrip kv.2 == "")).map
    (fun kv => kv.1)

/-- The document inserted by `create_school_contact` (lines 132-155): both
flags false, priority `normal`, source `contact_form`, email stored
lower-cased. -/
def mkContactDoc (d : ContactForm) (now freshId : Nat) : Contact :=
  { id := freshId
    school_name := pyStrip d.schoolName
    principal_name := pyStrip d.principalName
    email := lowerStr (pyStrip d.email)
    phone := pyStrip d.phone
    school_type := pyStrip d.schoolType
    student_count := pyStrip d.studentCount
    address := pyStrip d.address
    city := pyStrip d.city
    state := pyStrip d.state
    country := pyStrip d.country
    website := pyStrip d.website
    message := pyStrip d.message
    preferred_contact := d.preferredContact
    timeline := d.timeline
    grades := d.grades
    interests := d.interests
    is_approved := false
    is_active := false
    priority_level := "normal"
    source := "contact_form"
    accepted_plan := none
    admin_notes := none
    initial_password := none
    rejection_reason := none
    review_notes := none
    approved_at := none
    rejected_at := none
    activated_at := none
    deactivated_at := none
    created_at := now
    updated_at := now }

/-- Outcome of `POST /school-contact`. -/
inductive SubmitResult where
  | missingFields (fields : List String)
  | invalidEmail
  | duplicateEmail
  | created (id : Nat) (school_name email : String)
  deriving DecidableEq, Repr

/-- HTTP status paired with each `SubmitResult` by the handler. -/
def submitHttpStatus : SubmitResult → Nat
  | .created _ _ _ => 201
  | _ => 400

/-- `create_school_contact`: required-field check, email format check,
case-insensitive duplicate check against stored (lower-cased) emails, then
insert.  The duplicate branch returns before any write. -/
def create_school_contact (st : List Contact) (d : ContactForm)
    (now freshId : Nat) : SubmitResult × List Contact :=
  let missing := requiredMissing d
  if missing.isEmpty then
    let email := pyStrip d.email
    if validate_email email then
      if (st.find? (fun c => c.email == lowerStr email)).isSome then
        (.duplicateEmail, st)
      else
        let doc := mkContactDoc d now freshId
        (.created freshId doc.school_name doc.email, st ++ [doc])
    else (.invalidEmail, st)
  else (.missingFields missing, st)

/-- Body of `PUT .../approve`: the two optional admin inputs with their
`data.get` defaults applied at use sites. -/
structure ApproveReq where
  accepted_plan : Option String
  admin_notes : Option String
  deriving DecidableEq, Repr

/-- The `$set` document of `approve_contact` (lines 303-311) applied to a
matched contact: both flags true, plan and notes defaulted, freshly generated
password stored, `approved_at` and `updated_at` stamped. -/
def applyApprove (now : Nat) (password : String) (req : ApproveReq)
    (c : Contact) : Contact :=
  { c with
    is_approved := true
    is_active := true
    accepted_plan := some (req.accepted_plan.getD "basic")
    admin_notes := some (req.admin_notes.getD ("Approved on " ++ toString now))
    initial_password := some password
    approved_at := some now
    updated_at := now }

/-- Mongo `update_one` with a `$set` on the `school_contacts` collection:
rewrite the first document whose `_id` matches, and report the modified
count, which is zero when nothing matched or the written fields already
held the written values. -/
def updateOneContact (st : List Contact) (cid : Nat)
    (f : Contact → Contact) : List Contact × Nat :=
  match st with
  | [] => ([], 0)
  | c :: rest =>
    if c.id == cid then
      (f c :: rest, if f c == c then 0 else 1)
    else
      let r := updateOneContact rest cid f
      (c :: r.1, r.2)

/-- Outcome of `PUT .../approve`. -/
inductive ApproveResult where
  | notFound
  | ok (contact_id : Nat) (password plan : String)
  deriving DecidableEq, Repr

/-- HTTP status paired with each `ApproveResult` by the handler. -/
def approveHttpStatus : ApproveResult → Nat
  | .notFound => 404
  | .ok _ _ _ => 200

/-- `approve_contact` (lines 282-346): generate a password (modelled by the
`password` argument standing for the `random.choices` draw), apply the
approval `$set`, and answer 404 exactly when the update modified zero
documents, otherwise return the generated password and plan. -/
def approve_contact (st : List Contact) (cid : Nat) (req : ApproveReq)
    (now : Nat) (password : String) : ApproveResult × List Contact :=
  let r := updateOneContact st cid (applyApprove now password req)
  if r.2 == 0 then (.notFound, r.1)
  else (.ok cid password (req.accepted_plan.getD "basic"), r.1)

/-! ## Lemmas about the contact-collection update -/

/-- Updating by `_id` rewrites exactly the first matching document, as seen
through `find?`, provided the rewrite keeps the `_id` (every `$set` in these
handlers does). -/
theorem updateOneContact_find? (st : List Contact) (cid : Nat)
    (f : Contact → Contact) (hf : ∀ c, (f c).id = c.id) :
    (updateOneContact st cid f).1.find? (fun x => x.id == cid)
      = (st.find? (fun x => x.id == cid)).map f := by
  induction st with
  | nil => simp [updateOneContact]
  | cons c rest ih =>
    by_cases h : c.id == cid
    · simp [updateOneContact, h, List.find?_cons_of_pos, hf]
    · simp only [updateOneContact, h, Bool.false_eq_true, if_false]
      rw [List.find?_cons_of_neg _ (by simpa using h),
          List.find?_cons_of_neg _ (by simpa using h)]
      exact ih

/-- The modified count of the `$set` update: zero when no document matched,
or when the matched document is left unchanged by the write. -/
theorem updateOneContact_count (st : List Contact) (cid : Nat)
    (f : Contact → Contact) :
    (updateOneContact st cid f).2
      = match st.find? (fun x => x.id == cid) with
        | none => 0
        | some c => if f c == c then 0 else 1 := by
  induction st with
  | nil => simp [updateOneContact]
  | cons c rest ih =>
    by_cases h : c.id == cid
    · simp [updateOneContact, h, List.find?_cons_of_pos]
    · simp only [updateOneContact, h, Bool.false_eq_true, if_false]
      rw [List.find?_cons_of_neg _ (by simpa using h)]
      exact ih

/-- A concrete stored contact request used to instantiate theorems with
hypotheses. -/
def sampleContact : Contact :=
  { id := 7
    school_name := "Green Valley"
    principal_name := "R. Rao"
    email := "a@b.com"
    phone := "12345"
    school_type := "private"
    student_count := "100"
    address := ""
    city := ""
    state := ""
    country := ""
    website := ""
    message := ""
    preferred_contact := "email"
    timeline := "3_months"
    grades := []
    interests := []
    is_approved := false
    is_active := false
    priority_level := "normal"
    source := "contact_form"
    accepted_plan := none
    admin_notes := none
    initial_password := none
    rejection_reason := none
    review_notes := none
    approved_at := none
    rejected_at := none
    activated_at := none
    deactivated_at := none
    created_at := 0
    updated_at := 0 }

/-- C1: when the contact id resolves and the approval write changes the
document (as it always does once the fresh `approved_at` stamp differs from
what is stored), `approve_contact` answers 200 with the generated password,
and the stored document now has both flags true, `approved_at` stamped and
the password persisted; and whenever the update modifies zero documents the
handler answers 404. -/
theorem approve_contact_spec (st : List Contact) (cid : Nat) (req : ApproveReq)
    (now : Nat) (pw : String) :
    (∀ c, st.find? (fun x => x.id == cid) = some c →
       applyApprove now pw req c ≠ c →
         (approve_contact st cid req now pw).1
             = ApproveResult.ok cid pw (req.accepted_plan.getD "basic") ∧
         approveHttpStatus (approve_contact st cid req now pw).1 = 200 ∧
         (approve_contact st cid req now pw).2.find? (fun x => x.id == cid)
             = some (applyApprove now pw req c) ∧
         (applyApprove now pw req c).is_approved = true ∧
         (applyApprove now pw req c).is_active = true ∧
         (applyApprove now pw req c).approved_at = some now ∧
         (applyApprove now pw req c).initial_password = some pw) ∧
    ((updateOneContact st cid (applyApprove now pw req)).2 = 0 →
       (approve_contact st cid req now pw).1 = ApproveResult.notFound ∧
       approveHttpStatus (approve_contact st cid req now pw).1 = 404) := by
  constructor
  · intro c hfind hne
    have hcount : (updateOneContact st cid (applyApprove now pw req)).2 = 1 := by
      rw [updateOneContact_count, hfind]
      simp [beq_iff_eq, hne]
    refine ⟨?_, ?_, ?_, rfl, rfl, rfl, rfl⟩
    · simp [approve_contact, hcount]
    · simp [approve_contact, hcount, approveHttpStatus]
    · have := updateOneContact_find? st cid (applyApprove now pw req)
        (fun c => rfl)
      simp [approve_contact, hcount, this, hfind]
  · intro h
    constructor
    · simp [approve_contact, h]
    · simp [approve_contact, h, approveHttpStatus]

/-- Witness for C1: on a one-element collection the hypotheses hold and both
branches are exercised (the resolving id 7, and the empty collection where
the update modifies zero documents). -/
theorem approve_contact_spec_witness :
    (List.find? (fun x => x.id == 7) [sampleContact] = some sampleContact
      ∧ applyApprove 5 "pw12" ⟨none, none⟩ sampleContact ≠ sampleContact
      ∧ (approve_contact [sampleContact] 7 ⟨none, none⟩ 5 "pw12").1
          = ApproveResult.ok 7 "pw12" "basic")
    ∧ ((updateOneContact ([] : List Contact) 7
          (applyApprove 5 "pw12" ⟨none, none⟩)).2 = 0
      ∧ (approve_contact ([] : List Contact) 7 ⟨none, none⟩ 5 "pw12").1
          = ApproveResult.notFound) :=
  ⟨⟨by decide, by decide,
      (((approve_contact_spec [sampleContact] 7 ⟨none, none⟩ 5 "pw12").1
        sampleContact (by decide) (by decide)).1)⟩,
   ⟨by decide,
      (((approve_contact_spec ([] : List Contact) 7 ⟨none, none⟩ 5 "pw12").2
        (by decide)).1)⟩⟩

/-- C7: after a successful submission, a second submission whose email equals
the first one up to ASCII case (and which passes the field and format checks
that run before the duplicate check) fails with the duplicate-email error,
HTTP 400, and leaves the stored collection exactly as the first call left
it - no document is inserted. -/
theorem submit_duplicate_spec (st : List Contact) (d1 d2 : ContactForm)
    (now1 id1 now2 id2 : Nat)
    (h1m : requiredMissing d1 = [])
    (h1e : validate_email (pyStrip d1.email) = true)
    (h1d : st.find? (fun c => c.email == lowerStr (pyStrip d1.email)) = none)
    (h2m : requiredMissing d2 = [])
    (h2e : validate_email (pyStrip d2.email) = true)
    (hcase : lowerStr (pyStrip d2.email) = lowerStr (pyStrip d1.email)) :
    (create_school_contact st d1 now1 id1).1
        = SubmitResult.created id1 (pyStrip d1.schoolName)
            (lowerStr (pyStrip d1.email)) ∧
    create_school_contact (create_school_contact st d1 now1 id1).2 d2 now2 id2
        = (SubmitResult.duplicateEmail, (create_school_contact st d1 now1 id1).2) ∧
    submitHttpStatus SubmitResult.duplicateEmail = 400 := by
  have hfirst : create_school_contact st d1 now1 id1
      = (SubmitResult.created id1 (pyStrip d1.schoolName)
          (lowerStr (pyStrip d1.email)),
         st ++ [mkContactDoc d1 now1 id1]) := by
    simp [create_school_contact, h1m, h1e, h1d, mkContactDoc]
  have hdoc : (mkContactDoc d1 now1 id1).email = lowerStr (pyStrip d2.email) := by
    rw [hcase]; rfl
  have h1d2 : st.find? (fun c => c.email == lowerStr (pyStrip d2.email)) = none := by
    rw [hcase]; exact h1d
  have hdup : ((st ++ [mkContactDoc d1 now1 id1]).find?
      (fun c => c.email == lowerStr (pyStrip d2.email))).isSome = true := by
    rw [List.find?_append, h1d2]
    simp [List.find?_cons, hdoc]
  refine ⟨by rw [hfirst], ?_, rfl⟩
  rw [hfirst]
  simp only [create_school_contact, h2m, h2e, List.isEmpty_nil, if_true, hdup]

/-- A first submission used by the C7 witness. -/
def sampleForm1 : ContactForm :=
  { schoolName := "Green Valley"
    principalName := "R. Rao"
    email := "a@b.com"
    phone := "12345"
    schoolType := "private"
    studentCount := ""
    address := ""
    city := ""
    state := ""
    country := ""
    website := ""
    message := ""
    preferredContact := "email"
    timeline := "3_months"
    grades := []
    interests := [] }

/-- A second submission with the same email in different ASCII case. -/
def sampleForm2 : ContactForm :=
  { sampleForm1 with email := "A@B.COM", schoolName := "Other" }

/-- Witness for C7: submitting `a@b.com` and then `A@B.COM` on an empty
collection exercises every hypothesis; the second call fails with the
duplicate error and inserts nothing. -/
theorem submit_duplicate_spec_witness :
    requiredMissing sampleForm2 = []
      ∧ validate_email (pyStrip sampleForm2.email) = true
      ∧ lowerStr (pyStrip sampleForm2.email) = lowerStr (pyStrip sampleForm1.email)
      ∧ create_school_contact
            (create_school_contact [] sampleForm1 3 1).2 sampleForm2 4 2
          = (SubmitResult.duplicateEmail, (create_school_contact [] sampleForm1 3 1).2) :=
  ⟨by decide, by decide, by decide,
    (submit_duplicate_spec [] sampleForm1 sampleForm2 3 1 4 2
      (by decide) (by decide) (by decide) (by decide) (by decide)
      (by decide)).2.1⟩

/-! ## Dynamic documents (`teachers.py`, `students.py`)

Teacher and student records are loosely-typed Mongo documents; they are
modelled as association lists from field name to a small value universe. -/

/-- Field values occurring in teacher/student documents. -/
inductive Val where
  | str (s : String)
  | nat (n : Nat)
  | bool (b : Bool)
  | strList (l : List String)
  | null
  deriving DecidableEq, Repr

/-- A Mongo document / JSON object. -/
abbrev Doc := List (String × Val)

/-- Python truthiness of a field value. -/
def pyTruthy : Val → Bool
  | .str s => s != ""
  | .nat n => n != 0
  | .bool b => b
  | .strList l => !l.isEmpty
  | .null => false

/-- `$set` of a single field: overwrite in place, or append a new field. -/
def setField (d : Doc) (k : String) (v : Val) : Doc :=
  if (d.lookup k).isSome then
    d.map (fun kv => if kv.1 == k then (k, v) else kv)
  else d ++ [(k, v)]

/-- `$set` of a whole update document. -/
def setMany (d : Doc) (u : Doc) : Doc :=
  u.foldl (fun acc kv => setField acc kv.1 kv.2) d

/-- A `$set` leaves the document unchanged exactly when every written field
already holds the written value; Mongo then reports `modified_count == 0`. -/
def unchangedBy (d : Doc) (u : Doc) : Bool :=
  u.all (fun kv => d.lookup kv.1 == some kv.2)

/-- Mongo `update_one` with filter `_id == idv` and a `$set`: rewrite the
first matching document and report the modified count. -/
def updateOneDoc (st : List Doc) (idv : Option Val) (u : Doc) :
    List Doc × Nat :=
  match st with
  | [] => ([], 0)
  | d :: rest =>
    if d.lookup "_id" == idv then
      (setMany d u :: rest, if unchangedBy d u then 0 else 1)
    else
      let r := updateOneDoc rest idv u
      (d :: r.1, r.2)

/-- The JSON envelope with its HTTP status, as every handler produces it. -/
structure ApiResp where
  status : Nat
  success : Bool
  message : String
  deriving DecidableEq, Repr

/-- Roles carried by the JWT and checked per-endpoint. -/
inductive Role where
  | admin
  | principal
  | teacher
  deriving DecidableEq, Repr

/-- The modified count reported by `updateOneDoc`: zero when nothing matched
or the matched document already held all written values. -/
theorem updateOneDoc_count (st : List Doc) (idv : Option Val) (u : Doc) :
    (updateOneDoc st idv u).2
      = match st.find? (fun d => d.lookup "_id" == idv) with
        | none => 0
        | some d => if unchangedBy d u then 0 else 1 := by
  induction st with
  | nil => simp [updateOneDoc]
  | cons d rest ih =>
    by_cases h : d.lookup "_id" == idv
    · simp [updateOneDoc, h, List.find?_cons_of_pos]
    · simp only [updateOneDoc, h, Bool.false_eq_true, if_false]
      rw [List.find?_cons_of_neg _ (by simpa using h)]
      exact ih

/-! ## Teacher update (`teachers.py`, `update_teacher`) -/

/-- Fields a teacher may update on their own profile. -/
def teacherSelfFields : List String :=
  ["name", "phone", "address", "date_of_birth", "emergency_contact",
   "profile_image"]

/-- Fields admins and principals may update. -/
def teacherAdminFields : List String :=
  ["name", "email", "phone", "subject", "classes", "status", "qualifications",
   "experience", "address", "date_of_birth", "emergency_contact", "gender",
   "blood_group", "designation", "department", "salary", "profile_image"]

/-- Comma-split with stripping and removal of empties, used for the
`classes` and `qualifications` string payloads. -/
def splitTrim (s : String) : List String :=
  ((s.splitOn ",").map pyStrip).filter (fun x => x != "")

/-- Per-field conversion inside the allow-list loop of `update_teacher`:
truthy `date_of_birth` strings go through `strptime` (the parsed date is an
abstract instant), string-valued `classes`/`qualifications` are comma-split;
everything else is copied as-is. -/
def convertTeacherField (strptime : String → Nat) (k : String) (v : Val) :
    Val :=
  if k == "date_of_birth" && pyTruthy v then
    match v with
    | .str s => .nat (strptime s)
    | _ => v
  else if k == "classes" || k == "qualifications" then
    match v with
    | .str s => .strList (splitTrim s)
    | _ => v
  else v

/-- The update document of `update_teacher`: the allow-listed fields present
in the request, converted, then the unconditional `updated_at` stamp. -/
def buildTeacherUpdate (strptime : String → Nat) (allowed : List String)
    (data : Doc) (now : Nat) : Doc :=
  (allowed.filterMap
    (fun f => (data.lookup f).map (fun v => (f, convertTeacherField strptime f v))))
    ++ [("updated_at", Val.nat now)]

/-- `update_teacher` (lines 586-679): permission checks, existence check,
allow-list merge, `$set` by `_id`; a zero modified count answers
200 with success `true` and the message `No changes made`, any other
count answers 200 `Teacher updated successfully`. -/
def update_teacher (strptime : String → Nat) (st : List Doc) (role : Role)
    (userId : Nat) (userSchool : String) (tid : Nat) (data : Doc)
    (now : Nat) : ApiResp × List Doc :=
  if role == .teacher && userId != tid then
    (⟨403, false, "You can only update your own profile"⟩, st)
  else
    match st.find? (fun d => d.lookup "_id" == some (.nat tid)) with
    | none => (⟨404, false, "Teacher not found"⟩, st)
    | some t =>
      if role == .principal && t.lookup "school_id" != some (.str userSchool) then
        (⟨403, false, "Unauthorized access"⟩, st)
      else
        let allowed := if role == .teacher then teacherSelfFields
                       else teacherAdminFields
        let u := buildTeacherUpdate strptime allowed data now
        let r := updateOneDoc st (some (.nat tid)) u
        if r.2 == 0 then (⟨200, true, "No changes made"⟩, r.1)
        else (⟨200, true, "Teacher updated successfully"⟩, r.1)

/-! ## Student update (`students.py`, `update_student`) -/

/-- The allow-listed student update fields (email is handled separately). -/
def studentUpdateFields : List String :=
  ["name", "phone", "class", "section", "date_of_birth", "gender", "address",
   "parent_name", "parent_phone", "parent_email", "parent_occupation",
   "blood_group", "medical_conditions", "attendance", "performance", "status",
   "profile_image"]

/-- The field merge of `update_student`: copy each allow-listed field present
in the request, unconverted. -/
def buildStudentUpdate (data : Doc) : Doc :=
  studentUpdateFields.filterMap
    (fun f => (data.lookup f).map (fun v => (f, v)))

/-- String payload of an optional value (missing and non-string payloads
read as the empty string). -/
def getStr : Option Val → String
  | some (.str s) => s
  | _ => ""

/-- Resolution of a student id: first by the business `student_id`, then by
the primary key. -/
def findStudentDoc (st : List Doc) (sid : String) : Option Doc :=
  match st.find? (fun d => d.lookup "student_id" == some (.str sid)) with
  | some d => some d
  | none => st.find? (fun d => d.lookup "_id" == some (.str sid))

/-- Tail of `update_student`: stamp `updated_at`, `$set` by the resolved
primary key; a zero modified count answers 400 `No changes made`,
otherwise 200 `Student updated successfully`. -/
def finishStudentUpdate (st : List Doc) (s : Doc) (upd : Doc) (now : Nat) :
    ApiResp × List Doc :=
  let u := upd ++ [("updated_at", Val.nat now)]
  let r := updateOneDoc st (s.lookup "_id") u
  if r.2 == 0 then (⟨400, false, "No changes made"⟩, r.1)
  else (⟨200, true, "Student updated successfully"⟩, r.1)

/-- `update_student` (lines 571-651): resolve the id, merge the allow-listed
fields, handle an email change with a uniqueness re-check, then finish with
the stamped `$set`. -/
def update_student (st : List Doc) (sid : String) (data : Doc) (now : Nat) :
    ApiResp × List Doc :=
  match findStudentDoc st sid with
  | none => (⟨404, false, "Student not found"⟩, st)
  | some s =>
    let base := buildStudentUpdate data
    match data.lookup "email" with
    | some v =>
      let newEmail := lowerStr (pyStrip (getStr (some v)))
      if some (Val.str newEmail) != s.lookup "email" then
        if (st.find? (fun d => d.lookup "email" == some (.str newEmail))).isSome then
          (⟨400, false, "Email already in use"⟩, st)
        else
          finishStudentUpdate st s (base ++ [("email", .str newEmail)]) now
      else finishStudentUpdate st s base now
    | none => finishStudentUpdate st s base now

/-- A stored teacher document used in concrete statements. -/
def teacherDoc0 : Doc :=
  [("_id", Val.nat 1), ("school_id", Val.str "s1"), ("name", Val.str "T"),
   ("email", Val.str "t@x.co"), ("updated_at", Val.nat 0)]

/-- A stored student document used in concrete statements. -/
def studentDoc0 : Doc :=
  [("_id", Val.str "m1"), ("student_id", Val.str "STU1"),
   ("email", Val.str "s@x.co"), ("updated_at", Val.nat 0)]

/-- C3 fails on the code: at the concrete input where the request body is
empty - so the allow-list merge contributes zero fields - the teacher update
on the existing record with id 1 reports success (`updated_at` is always
stamped, so the write modifies the record and the handler answers
`Teacher updated successfully`); and even on the path where Mongo reports
zero modified fields the teacher handler answers success `true` with
HTTP 200, not an error. -/
theorem update_nochange_cex :
    buildTeacherUpdate (fun _ => 0) teacherAdminFields [] 1
        = [("updated_at", Val.nat 1)]
    ∧ (update_teacher (fun _ => 0) [teacherDoc0] Role.admin 1 "" 1 [] 1).1
        = ⟨200, true, "Teacher updated successfully"⟩
    ∧ (update_teacher (fun _ => 0) [teacherDoc0] Role.admin 1 "" 1 [] 0).1
        = ⟨200, true, "No changes made"⟩ := by decide

/-- Reduction of the teacher update document for an empty request body:
only the `updated_at` stamp remains. -/
theorem buildTeacherUpdate_nil (strptime : String → Nat)
    (allowed : List String) (now : Nat) :
    buildTeacherUpdate strptime allowed [] now = [("updated_at", Val.nat now)] := by
  unfold buildTeacherUpdate
  have h : allowed.filterMap
      (fun f => ((([] : Doc).lookup f).map
        (fun v => (f, convertTeacherField strptime f v)))) = [] := by
    induction allowed with
    | nil => rfl
    | cons a as ih => simp [List.filterMap_cons, List.lookup, ih]
  rw [h]; rfl

/-- C3 amended: a Mongo-reported zero-modified update (possible only when
the fresh `updated_at` stamp coincides with the stored one, since the stamp
is always part of the write) makes the student endpoint answer
400 `No changes made` with success `false`, but makes the teacher endpoint
answer 200 `No changes made` with success `true`; and a merge with zero
caller-supplied fields normally reports `Teacher updated successfully`
because the stamp alone modifies the record. -/
theorem update_nochange_amended (strptime : String → Nat) (st : List Doc)
    (role : Role) (userId : Nat) (userSchool : String) (tid : Nat)
    (data : Doc) (sid : String) (sdata : Doc) (now : Nat) :
    (∀ t, (role == Role.teacher && userId != tid) = false →
       st.find? (fun d => d.lookup "_id" == some (.nat tid)) = some t →
       (role == Role.principal && t.lookup "school_id" != some (.str userSchool)) = false →
       unchangedBy t (buildTeacherUpdate strptime
         (if role = Role.teacher then teacherSelfFields else teacherAdminFields)
         data now) = true →
       (update_teacher strptime st role userId userSchool tid data now).1
         = ⟨200, true, "No changes made"⟩)
    ∧ (∀ s, findStudentDoc st sid = some s →
        sdata.lookup "email" = none →
        st.find? (fun d => d.lookup "_id" == s.lookup "_id") = some s →
        unchangedBy s (buildStudentUpdate sdata ++ [("updated_at", Val.nat now)]) = true →
        (update_student st sid sdata now).1 = ⟨400, false, "No changes made"⟩)
    ∧ (∀ t, (role == Role.teacher && userId != tid) = false →
        st.find? (fun d => d.lookup "_id" == some (.nat tid)) = some t →
        (role == Role.principal && t.lookup "school_id" != some (.str userSchool)) = false →
        t.lookup "updated_at" ≠ some (Val.nat now) →
        (update_teacher strptime st role userId userSchool tid [] now).1
          = ⟨200, true, "Teacher updated successfully"⟩) := by
  refine ⟨?_, ?_, ?_⟩
  · intro t h1 h2 h3 h4
    have hc : (updateOneDoc st (some (.nat tid)) (buildTeacherUpdate strptime
        (if role = Role.teacher then teacherSelfFields else teacherAdminFields)
        data now)).2 = 0 := by
      rw [updateOneDoc_count, h2]
      simp [h4]
    simp [update_teacher, h1, h2, h3, hc]
  · intro s hfind hem hsid h4
    have hc : (updateOneDoc st (s.lookup "_id")
        (buildStudentUpdate sdata ++ [("updated_at", Val.nat now)])).2 = 0 := by
      rw [updateOneDoc_count, hsid]
      simp [h4]
    simp [update_student, hfind, hem, finishStudentUpdate, hc]
  · intro t h1 h2 h3 h4
    have hu : unchangedBy t (buildTeacherUpdate strptime
        (if role = Role.teacher then teacherSelfFields else teacherAdminFields)
        [] now) = false := by
      rw [buildTeacherUpdate_nil]
      simp [unchangedBy, h4]
    have hc : (updateOneDoc st (some (.nat tid)) (buildTeacherUpdate strptime
        (if role = Role.teacher then teacherSelfFields else teacherAdminFields)
        [] now)).2 = 1 := by
      rw [updateOneDoc_count, h2]
      simp [hu]
    simp [update_teacher, h1, h2, h3, hc]

/-- Witness for the amended C3: the three branches at concrete inputs -
a teacher no-change write answered success `true`, a student no-change write
answered 400, and an empty teacher merge answered `updated successfully`. -/
theorem update_nochange_amended_witness :
    (update_teacher (fun _ => 0) [teacherDoc0] Role.admin 1 "" 1 [] 0).1
        = ⟨200, true, "No changes made"⟩
    ∧ (update_student [studentDoc0] "STU1" [] 0).1
        = ⟨400, false, "No changes made"⟩
    ∧ (update_teacher (fun _ => 0) [teacherDoc0] Role.admin 1 "" 1 [] 1).1
        = ⟨200, true, "Teacher updated successfully"⟩ :=
  ⟨(update_nochange_amended (fun _ => 0) [teacherDoc0] Role.admin 1 "" 1 [] "STU1" [] 0).1
      teacherDoc0 (by decide) (by decide) (by decide) (by decide),
   (update_nochange_amended (fun _ => 0) [studentDoc0] Role.admin 1 "" 1 [] "STU1" [] 0).2.1
      studentDoc0 (by decide) (by decide) (by decide) (by decide),
   (update_nochange_amended (fun _ => 0) [teacherDoc0] Role.admin 1 "" 1 [] "STU1" [] 1).2.2
      teacherDoc0 (by decide) (by decide) (by decide) (by decide)⟩

/-! ## Bulk import rows (`students.py` 317-371, `teachers.py` 838-915) -/

/-- A spreadsheet cell as pandas presents it: a value or a missing entry. -/
inductive Cell where
  | na
  | val (s : String)
  deriving DecidableEq, Repr

/-- A parsed spreadsheet row: column name to cell. -/
abbrev Row := List (String × Cell)

/-- `str(cell)`: a missing value prints as the string `nan`. -/
def pdStr : Cell → String
  | .na => "nan"
  | .val s => s

/-- `pd.isna`. -/
def pdIsna : Cell → Bool
  | .na => true
  | .val _ => false

/-- `row[col]` for a column known to exist; a blank cell is missing. -/
def rowCell (r : Row) (k : String) : Cell := (r.lookup k).getD .na

/-- `row.get(col, default)`: the default applies when the column is absent
from the sheet. -/
def rowGet (r : Row) (k : String) (dflt : String) : Cell :=
  (r.lookup k).getD (.val dflt)

/-- The conditional-string pattern
`str(row.get(k, d)).strip() if pd.notna(row.get(k)) else d`
of the teacher bulk import. -/
def condStr (row : Row) (k : String) (dflt : String) : String :=
  if pdIsna (rowCell row k) then dflt else pyStrip (pdStr (rowCell row k))

/-- Zero-padding of `str.zfill`. -/
def zfill (w : Nat) (s : String) : String :=
  String.mk (List.replicate (w - s.length) '0') ++ s

/-- `generate_employee_id`: school code, `T`, year, zero-padded sequence. -/
def generate_employee_id (schoolCode : String) (year count : Nat) : String :=
  schoolCode ++ "T" ++ toString year ++ zfill 4 (toString count)

/-- `float(row.get(col, 0))` of the student import: an absent column
converts the numeric default `0`, a missing cell converts too (`float` of
a pandas missing value is `nan`), and a string cell goes through `float`,
which may raise `ValueError`.  `pyFloat` stands for `float` on strings:
the converted text, or the exception text that the per-row `except`
records. -/
def pdFloatCell (pyFloat : String → Except String String) (r : Row)
    (k : String) : Except String String :=
  match r.lookup k with
  | none => .ok "0"
  | some .na => .ok "nan"
  | some (.val s) => pyFloat s

/-- The student document built for one accepted bulk-import row
(`students.py` 340-366).  `genId`/`genPw` stand for the random draws of
`generate_student_id`/`generate_password`, `bcryptHash` for
`hash_password`; `att`/`perf` are the already-converted
`float(...)` payloads. -/
def mkStudentBulkDoc (genId genPw : String) (bcryptHash : String → String)
    (now : Nat) (name email clsName sect att perf : String) (row : Row) :
    Doc :=
  [("student_id", .str genId),
   ("name", .str name),
   ("email", .str email),
   ("phone", .str (pyStrip (pdStr (rowGet row "Phone" "")))),
   ("roll_number", .str (pyStrip (pdStr (rowGet row "Roll Number" genId)))),
   ("class", .str clsName),
   ("section", .str sect),
   ("date_of_birth", .str (pyStrip (pdStr (rowGet row "Date of Birth" "")))),
   ("gender", .str (lowerStr (pyStrip (pdStr (rowGet row "Gender" ""))))),
   ("address", .str (pyStrip (pdStr (rowGet row "Address" "")))),
   ("parent_name", .str (pyStrip (pdStr (rowGet row "Parent Name" "")))),
   ("parent_phone", .str (pyStrip (pdStr (rowGet row "Parent Phone" "")))),
   ("parent_email", .str (pyStrip (pdStr (rowGet row "Parent Email" "")))),
   ("parent_occupation", .str (pyStrip (pdStr (rowGet row "Parent Occupation" "")))),
   ("blood_group", .str (pyStrip (pdStr (rowGet row "Blood Group" "")))),
   ("medical_conditions", .str (pyStrip (pdStr (rowGet row "Medical Conditions" "")))),
   ("admission_date", .str (pdStr (rowGet row "Admission Date" (toString now)))),
   ("attendance", .str att),
   ("performance", .str perf),
   ("status", .str (lowerStr (pyStrip (pdStr (rowGet row "Status" "active"))))),
   ("hashed_password", .str (bcryptHash genPw)),
   ("initial_password", .str genPw),
   ("created_by", .str "admin"),
   ("created_at", .nat now),
   ("updated_at", .nat now)]

/-- Per-row processing of the student bulk import: required cells nonempty
after stripping, then email syntax, then the two `float(...)` conversions
evaluated while the document literal is built (`Attendance` before
`Performance`); a conversion failure is caught by the per-row `except` and
recorded as `Row k: str(e)`. -/
def processStudentRow (pyFloat : String → Except String String)
    (genId genPw : String) (bcryptHash : String → String)
    (now idx : Nat) (row : Row) : Except String Doc :=
  let name := pyStrip (pdStr (rowCell row "Name"))
  let email := lowerStr (pyStrip (pdStr (rowCell row "Email")))
  let clsName := pyStrip (pdStr (rowCell row "Class"))
  let sect := upperStr (pyStrip (pdStr (rowCell row "Section")))
  if name == "" || email == "" || clsName == "" || sect == "" then
    .error ("Row " ++ toString (idx + 2) ++ ": Missing required fields")
  else if !validate_email email then
    .error ("Row " ++ toString (idx + 2) ++ ": Invalid email format: " ++ email)
  else
    match pdFloatCell pyFloat row "Attendance" with
    | .error e => .error ("Row " ++ toString (idx + 2) ++ ": " ++ e)
    | .ok att =>
      match pdFloatCell pyFloat row "Performance" with
      | .error e => .error ("Row " ++ toString (idx + 2) ++ ": " ++ e)
      | .ok perf =>
        .ok (mkStudentBulkDoc genId genPw bcryptHash now name email clsName
          sect att perf row)

/-- The row loop of `bulk_import_students`: every row is processed, accepted
documents and error messages are accumulated, and no error aborts the
batch. -/
def bulkStudentsRowsAux (pyFloat : String → Except String String)
    (genId genPw : Nat → String) (bcryptHash : String → String) (now : Nat) :
    Nat → List Row → List Doc × List String
  | _, [] => ([], [])
  | idx, r :: rs =>
    let rest := bulkStudentsRowsAux pyFloat genId genPw bcryptHash now (idx + 1) rs
    match processStudentRow pyFloat (genId idx) (genPw idx) bcryptHash now idx r with
    | .ok d => (d :: rest.1, rest.2)
    | .error e => (rest.1, e :: rest.2)

/-- The full phase-1 scan starting at the first sheet row. -/
def bulkStudentsRows (pyFloat : String → Except String String)
    (genId genPw : Nat → String) (bcryptHash : String → String) (now : Nat)
    (rows : List Row) : List Doc × List String :=
  bulkStudentsRowsAux pyFloat genId genPw bcryptHash now 0 rows

/-- `int(row.get('experience', 0)) if pd.notna(row.get('experience'))
else 0` (`teachers.py` 885): an absent column or missing cell yields the
default without conversion; a string cell goes through `int` (`pyInt`),
whose `ValueError` text becomes the row error. -/
def convExperience (pyInt : String → Except String String) (r : Row) :
    Except String String :=
  match r.lookup "experience" with
  | some (.val s) => pyInt s
  | _ => .ok "0"

/-- `datetime.strptime(row['date_of_birth'], ...) if present and notna
else None` (`teachers.py` 887): `strptimeB` stands for `strptime`, failing
on an unparsable payload. -/
def convDob (strptimeB : String → Except String Nat) (r : Row) :
    Except String (Option Nat) :=
  match r.lookup "date_of_birth" with
  | some (.val s) =>
    match strptimeB s with
    | .error e => .error e
    | .ok n => .ok (some n)
  | _ => .ok none

/-- `float(row['salary']) if present and notna else None`
(`teachers.py` 893). -/
def convSalary (pyFloat : String → Except String String) (r : Row) :
    Except String (Option String) :=
  match r.lookup "salary" with
  | some (.val s) =>
    match pyFloat s with
    | .error e => .error e
    | .ok v => .ok (some v)
  | _ => .ok none

/-- The fallible conversions of the teacher document literal, evaluated in
its order: `experience`, then `date_of_birth`, then `salary`; the first
failure aborts the row with its exception text. -/
def teacherRowConv (pyInt pyFloat : String → Except String String)
    (strptimeB : String → Except String Nat) (r : Row) :
    Except String (String × Option Nat × Option String) :=
  match convExperience pyInt r with
  | .error e => .error e
  | .ok exp =>
    match convDob strptimeB r with
    | .error e => .error e
    | .ok dob =>
      match convSalary pyFloat r with
      | .error e => .error e
      | .ok sal => .ok (exp, dob, sal)

/-- The teacher document built for one accepted bulk-import row
(`teachers.py` 871-898); `exp`, `dob` and `sal` are the already-converted
`int`/`strptime`/`float` payloads. -/
def mkTeacherBulkDoc (bcryptHash : String → String)
    (year : Nat) (schoolCode : String) (schoolId : Option String)
    (schoolName createdBy : String) (count : Nat) (tempPw : String)
    (now : Nat) (email : String) (exp : String) (dob : Option Nat)
    (sal : Option String) (row : Row) : Doc :=
  [("employee_id", .str (generate_employee_id schoolCode year count)),
   ("school_id", match schoolId with | some s => .str s | none => .null),
   ("school_code", .str schoolCode),
   ("school_name", .str schoolName),
   ("name", .str (pyStrip (pdStr (rowCell row "name")))),
   ("email", .str email),
   ("phone", .str (pyStrip (pdStr (rowCell row "phone")))),
   ("password", .str (bcryptHash tempPw)),
   ("subject", .str (pyStrip (pdStr (rowCell row "subject")))),
   ("classes", .strList (match row.lookup "classes" with
     | some c => if pdIsna c then [] else splitTrim (pdStr c)
     | none => [])),
   ("status", .str (pyStrip (pdStr (rowGet row "status" "active")))),
   ("join_date", .nat now),
   ("qualifications", .strList (match row.lookup "qualifications" with
     | some c => if pdIsna c then [] else splitTrim (pdStr c)
     | none => [])),
   ("experience", .str exp),
   ("address", .str (condStr row "address" "")),
   ("date_of_birth", match dob with | some n => .nat n | none => .null),
   ("emergency_contact", .str (condStr row "emergency_contact" "")),
   ("gender", .str (condStr row "gender" "")),
   ("blood_group", .str (condStr row "blood_group" "")),
   ("designation", .str (condStr row "designation" "Teacher")),
   ("department", .str (condStr row "department" "")),
   ("salary", match sal with | some s => .str s | none => .null),
   ("role", .str "teacher"),
   ("created_by", .str createdBy),
   ("created_at", .nat now),
   ("updated_at", .nat now)]

/-- Result of the teacher bulk-import row loop. -/
structure TBulkRes where
  db : List Doc
  success_count : Nat
  error_count : Nat
  errors : List String
  deriving DecidableEq, Repr

/-- The per-row duplicate probe against the live collection. -/
def teacherEmailExists (db : List Doc) (email : String) : Bool :=
  (db.find? (fun d => d.lookup "email" == some (.str email))).isSome

/-- The row loop of `bulk_import_teachers`: rows with a missing name or
email cell are silently skipped; an email already present in the
collection (including one inserted by an earlier row of the same batch)
is recorded as a row error; otherwise the sequence counter is advanced
(the source increments `teacher_count` before building the document, so a
later failure still consumes a number), the conversions run, a conversion
failure is recorded as a row error through the per-row `except`, and an
accepted row is inserted at once with its generated employee id and
temporary password.  No email-syntax check is performed. -/
def bulkTeachersAux (pyInt pyFloat : String → Except String String)
    (strptimeB : String → Except String Nat) (bcryptHash : String → String)
    (genPw : Nat → String) (year : Nat) (schoolCode : String)
    (schoolId : Option String) (schoolName createdBy : String) (now : Nat) :
    List Doc → Nat → Nat → List Row → TBulkRes
  | db, _, _, [] => ⟨db, 0, 0, []⟩
  | db, count, idx, r :: rs =>
    if pdIsna (rowCell r "name") || pdIsna (rowCell r "email") then
      bulkTeachersAux pyInt pyFloat strptimeB bcryptHash genPw year schoolCode
        schoolId schoolName createdBy now db count (idx + 1) rs
    else
      let email := lowerStr (pyStrip (pdStr (rowCell r "email")))
      if teacherEmailExists db email then
        let rest := bulkTeachersAux pyInt pyFloat strptimeB bcryptHash genPw
          year schoolCode schoolId schoolName createdBy now db count (idx + 1) rs
        ⟨rest.db, rest.success_count, rest.error_count + 1,
         ("Row " ++ toString (idx + 2) ++ ": Email " ++ email
           ++ " already exists") :: rest.errors⟩
      else
        match teacherRowConv pyInt pyFloat strptimeB r with
        | .error e =>
          let rest := bulkTeachersAux pyInt pyFloat strptimeB bcryptHash genPw
            year schoolCode schoolId schoolName createdBy now db (count + 1)
            (idx + 1) rs
          ⟨rest.db, rest.success_count, rest.error_count + 1,
           ("Row " ++ toString (idx + 2) ++ ": " ++ e) :: rest.errors⟩
        | .ok conv =>
          let d := mkTeacherBulkDoc bcryptHash year schoolCode schoolId
            schoolName createdBy (count + 1) (genPw idx) now email
            conv.1 conv.2.1 conv.2.2 r
          let rest := bulkTeachersAux pyInt pyFloat strptimeB bcryptHash genPw
            year schoolCode schoolId schoolName createdBy now (db ++ [d])
            (count + 1) (idx + 1) rs
          ⟨rest.db, rest.success_count + 1, rest.error_count, rest.errors⟩

/-- A teacher sheet row with both required cells blank. -/
def blankTeacherRow : Row := [("name", Cell.na), ("email", Cell.na)]

/-- A teacher sheet row carrying a syntactically invalid email. -/
def badTeacherRow : Row :=
  [("name", Cell.val "X"), ("email", Cell.val "notanemail"),
   ("phone", Cell.val "123"), ("subject", Cell.val "Math")]

/-- A teacher sheet row duplicating the stored email of `teacherDoc0`. -/
def dupTeacherRow : Row :=
  [("name", Cell.val "Y"), ("email", Cell.val "t@x.co"),
   ("phone", Cell.val "1"), ("subject", Cell.val "Sci")]

/-- A teacher sheet row whose `experience` cell is not numeric. -/
def badIntTeacherRow : Row :=
  [("name", Cell.val "W"), ("email", Cell.val "w@x.co"),
   ("phone", Cell.val "1"), ("subject", Cell.val "Bio"),
   ("experience", Cell.val "abc")]

/-- A fully blank student sheet row (every cell missing). -/
def blankStudentRow : Row :=
  [("Name", Cell.na), ("Email", Cell.na), ("Class", Cell.na),
   ("Section", Cell.na)]

/-- A valid student sheet row. -/
def goodStudentRow : Row :=
  [("Name", Cell.val "John"), ("Email", Cell.val "j@k.co"),
   ("Class", Cell.val "10"), ("Section", Cell.val "a")]

/-- A student sheet row whose `Attendance` cell is not numeric. -/
def badFloatStudentRow : Row :=
  [("Name", Cell.val "Ann"), ("Email", Cell.val "a@k.co"),
   ("Class", Cell.val "9"), ("Section", Cell.val "B"),
   ("Attendance", Cell.val "abc")]

/-- C4 fails on the code: the teacher bulk import performs no email-syntax
validation - the concrete row with email `notanemail` (which the shared
validator rejects) is imported as a success with no row error - and the
student bulk import does not skip a blank row; it records it as a row-level
error (`str` of a missing cell reads `nan`, which fails the email check). -/
theorem bulk_import_row_cex :
    validate_email "notanemail" = false
    ∧ (bulkTeachersAux (fun s => .ok s) (fun s => .ok s) (fun _ => .ok 0)
        (fun s => s ++ "h") (fun _ => "pw8")
        2024 "SCH" none "" "admin" 9 [] 0 0 [badTeacherRow]).success_count = 1
    ∧ (bulkTeachersAux (fun s => .ok s) (fun s => .ok s) (fun _ => .ok 0)
        (fun s => s ++ "h") (fun _ => "pw8")
        2024 "SCH" none "" "admin" 9 [] 0 0 [badTeacherRow]).errors = []
    ∧ processStudentRow (fun s => .ok s) "STU1" "pw8" (fun s => s ++ "h") 9 0
        blankStudentRow
        = Except.error "Row 2: Invalid email format: nan" :=
  ⟨rfl, rfl, rfl, rfl⟩

/-- C4 amended: in the teacher import a row with a missing name or email
cell is silently skipped and no email-syntax validation happens; in the
student import the email is validated and a failing row (including a blank
one) is recorded as a row-level error; in both imports a conversion failure
(`int`/`float`/`strptime` in the teacher document, `float` in the student
document) is caught by the per-row `except` and recorded as a row error;
an accepted row carries a freshly generated id and password; and no
failing row aborts the batch - the remaining rows are processed
identically. -/
theorem bulk_import_row_amended
    (pyInt pyFloat : String → Except String String)
    (strptimeB : String → Except String Nat)
    (bcryptHash : String → String) (genPw genId genPw2 : Nat → String)
    (year : Nat) (schoolCode : String) (schoolId : Option String)
    (schoolName createdBy : String) (now : Nat) (db : List Doc)
    (count idx : Nat) (r : Row) (rs : List Row) :
    ((pdIsna (rowCell r "name") || pdIsna (rowCell r "email")) = true →
      bulkTeachersAux pyInt pyFloat strptimeB bcryptHash genPw year schoolCode
          schoolId schoolName createdBy now db count idx (r :: rs)
        = bulkTeachersAux pyInt pyFloat strptimeB bcryptHash genPw year
            schoolCode schoolId schoolName createdBy now db count (idx + 1) rs)
    ∧ ((pdIsna (rowCell r "name") || pdIsna (rowCell r "email")) = false →
       teacherEmailExists db (lowerStr (pyStrip (pdStr (rowCell r "email")))) = true →
       bulkTeachersAux pyInt pyFloat strptimeB bcryptHash genPw year schoolCode
           schoolId schoolName createdBy now db count idx (r :: rs)
         = ⟨(bulkTeachersAux pyInt pyFloat strptimeB bcryptHash genPw year
               schoolCode schoolId schoolName createdBy now db count (idx + 1)
               rs).db,
            (bulkTeachersAux pyInt pyFloat strptimeB bcryptHash genPw year
               schoolCode schoolId schoolName createdBy now db count (idx + 1)
               rs).success_count,
            (bulkTeachersAux pyInt pyFloat strptimeB bcryptHash genPw year
               schoolCode schoolId schoolName createdBy now db count (idx + 1)
               rs).error_count + 1,
            ("Row " ++ toString (idx + 2) ++ ": Email "
              ++ lowerStr (pyStrip (pdStr (rowCell r "email")))
              ++ " already exists")
              :: (bulkTeachersAux pyInt pyFloat strptimeB bcryptHash genPw
                   year schoolCode schoolId schoolName createdBy now db count
                   (idx + 1) rs).errors⟩)
    ∧ (∀ exp dob sal,
       (pdIsna (rowCell r "name") || pdIsna (rowCell r "email")) = false →
       teacherEmailExists db (lowerStr (pyStrip (pdStr (rowCell r "email")))) = false →
       teacherRowConv pyInt pyFloat strptimeB r = .ok (exp, dob, sal) →
       (mkTeacherBulkDoc bcryptHash year schoolCode schoolId
           schoolName createdBy (count + 1) (genPw idx) now
           (lowerStr (pyStrip (pdStr (rowCell r "email")))) exp dob sal
           r).lookup "employee_id"
         = some (.str (generate_employee_id schoolCode year (count + 1)))
       ∧ (mkTeacherBulkDoc bcryptHash year schoolCode schoolId
           schoolName createdBy (count + 1) (genPw idx) now
           (lowerStr (pyStrip (pdStr (rowCell r "email")))) exp dob sal
           r).lookup "password"
         = some (.str (bcryptHash (genPw idx)))
       ∧ bulkTeachersAux pyInt pyFloat strptimeB bcryptHash genPw year
           schoolCode schoolId schoolName createdBy now db count idx (r :: rs)
         = ⟨(bulkTeachersAux pyInt pyFloat strptimeB bcryptHash genPw year
               schoolCode schoolId schoolName createdBy now
               (db ++ [mkTeacherBulkDoc bcryptHash year schoolCode
                 schoolId schoolName createdBy (count + 1) (genPw idx) now
                 (lowerStr (pyStrip (pdStr (rowCell r "email")))) exp dob sal r])
               (count + 1) (idx + 1) rs).db,
            (bulkTeachersAux pyInt pyFloat strptimeB bcryptHash genPw year
               schoolCode schoolId schoolName createdBy now
               (db ++ [mkTeacherBulkDoc bcryptHash year schoolCode
                 schoolId schoolName createdBy (count + 1) (genPw idx) now
                 (lowerStr (pyStrip (pdStr (rowCell r "email")))) exp dob sal r])
               (count + 1) (idx + 1) rs).success_count + 1,
            (bulkTeachersAux pyInt pyFloat strptimeB bcryptHash genPw year
               schoolCode schoolId schoolName createdBy now
               (db ++ [mkTeacherBulkDoc bcryptHash year schoolCode
                 schoolId schoolName createdBy (count + 1) (genPw idx) now
                 (lowerStr (pyStrip (pdStr (rowCell r "email")))) exp dob sal r])
               (count + 1) (idx + 1) rs).error_count,
            (bulkTeachersAux pyInt pyFloat strptimeB bcryptHash genPw year
               schoolCode schoolId schoolName createdBy now
               (db ++ [mkTeacherBulkDoc bcryptHash year schoolCode
                 schoolId schoolName createdBy (count + 1) (genPw idx) now
                 (lowerStr (pyStrip (pdStr (rowCell r "email")))) exp dob sal r])
               (count + 1) (idx + 1) rs).errors⟩)
    ∧ (∀ e,
       (pdIsna (rowCell r "name") || pdIsna (rowCell r "email")) = false →
       teacherEmailExists db (lowerStr (pyStrip (pdStr (rowCell r "email")))) = false →
       teacherRowConv pyInt pyFloat strptimeB r = .error e →
       bulkTeachersAux pyInt pyFloat strptimeB bcryptHash genPw year
           schoolCode schoolId schoolName createdBy now db count idx (r :: rs)
         = ⟨(bulkTeachersAux pyInt pyFloat strptimeB bcryptHash genPw year
               schoolCode schoolId schoolName createdBy now db (count + 1)
               (idx + 1) rs).db,
            (bulkTeachersAux pyInt pyFloat strptimeB bcryptHash genPw year
               schoolCode schoolId schoolName createdBy now db (count + 1)
               (idx + 1) rs).success_count,
            (bulkTeachersAux pyInt pyFloat strptimeB bcryptHash genPw year
               schoolCode schoolId schoolName createdBy now db (count + 1)
               (idx + 1) rs).error_count + 1,
            ("Row " ++ toString (idx + 2) ++ ": " ++ e)
              :: (bulkTeachersAux pyInt pyFloat strptimeB bcryptHash genPw
                   year schoolCode schoolId schoolName createdBy now db
                   (count + 1) (idx + 1) rs).errors⟩)
    ∧ (∀ e, processStudentRow pyFloat (genId idx) (genPw2 idx) bcryptHash now
          idx r = .error e →
        bulkStudentsRowsAux pyFloat genId genPw2 bcryptHash now idx (r :: rs)
          = ((bulkStudentsRowsAux pyFloat genId genPw2 bcryptHash now (idx + 1)
                rs).1,
             e :: (bulkStudentsRowsAux pyFloat genId genPw2 bcryptHash now
                (idx + 1) rs).2))
    ∧ (∀ e,
        (pyStrip (pdStr (rowCell r "Name")) == ""
          || lowerStr (pyStrip (pdStr (rowCell r "Email"))) == ""
          || pyStrip (pdStr (rowCell r "Class")) == ""
          || upperStr (pyStrip (pdStr (rowCell r "Section"))) == "") = false →
        validate_email (lowerStr (pyStrip (pdStr (rowCell r "Email")))) = true →
        pdFloatCell pyFloat r "Attendance" = .error e →
        processStudentRow pyFloat (genId idx) (genPw2 idx) bcryptHash now idx r
          = .error ("Row " ++ toString (idx + 2) ++ ": " ++ e))
    ∧ (∀ d, processStudentRow pyFloat (genId idx) (genPw2 idx) bcryptHash now
          idx r = .ok d →
        d.lookup "student_id" = some (.str (genId idx))
        ∧ d.lookup "initial_password" = some (.str (genPw2 idx))
        ∧ d.lookup "hashed_password" = some (.str (bcryptHash (genPw2 idx)))
        ∧ bulkStudentsRowsAux pyFloat genId genPw2 bcryptHash now idx (r :: rs)
          = (d :: (bulkStudentsRowsAux pyFloat genId genPw2 bcryptHash now
                (idx + 1) rs).1,
             (bulkStudentsRowsAux pyFloat genId genPw2 bcryptHash now (idx + 1)
                rs).2)) := by
  refine ⟨?_, ?_, ?_, ?_, ?_, ?_, ?_⟩
  · intro h
    simp [bulkTeachersAux, h]
  · intro h1 h2
    simp [bulkTeachersAux, h1, h2]
  · intro exp dob sal h1 h2 hconv
    refine ⟨rfl, rfl, ?_⟩
    simp [bulkTeachersAux, h1, h2, hconv]
  · intro e h1 h2 hconv
    simp [bulkTeachersAux, h1, h2, hconv]
  · intro e he
    simp [bulkStudentsRowsAux, he]
  · intro e h1 h2 hfail
    simp [processStudentRow, h1, h2, hfail]
  · intro d hok
    have hfold : bulkStudentsRowsAux pyFloat genId genPw2 bcryptHash now idx
        (r :: rs)
        = (d :: (bulkStudentsRowsAux pyFloat genId genPw2 bcryptHash now
              (idx + 1) rs).1,
           (bulkStudentsRowsAux pyFloat genId genPw2 bcryptHash now (idx + 1)
              rs).2) := by
      simp [bulkStudentsRowsAux, hok]
    simp only [processStudentRow] at hok
    split at hok
    · exact absurd hok (by simp)
    · split at hok
      · exact absurd hok (by simp)
      · split at hok
        · exact absurd hok (by simp)
        · split at hok
          · exact absurd hok (by simp)
          · injection hok with hd
            subst hd
            exact ⟨rfl, rfl, rfl, hfold⟩

/-- Witness for the amended C4: the per-row behaviours at concrete rows -
a blank teacher row skipped, a duplicate teacher email recorded as a row
error, a fresh teacher row counted as a success, a teacher row with a
non-numeric `experience` cell recorded as a row error, a blank student row
recorded as a row error, a student row with a non-numeric `Attendance`
cell recorded as a row error, and an accepted student row carrying its
generated id. -/
theorem bulk_import_row_amended_witness :
    bulkTeachersAux (fun s => .ok s) (fun s => .ok s) (fun _ => .ok 0)
        (fun s => s ++ "h") (fun _ => "pw8") 2024
        "SCH" none "" "admin" 9 [] 0 0 [blankTeacherRow]
      = bulkTeachersAux (fun s => .ok s) (fun s => .ok s) (fun _ => .ok 0)
          (fun s => s ++ "h") (fun _ => "pw8") 2024
          "SCH" none "" "admin" 9 [] 0 1 []
    ∧ (bulkTeachersAux (fun s => .ok s) (fun s => .ok s) (fun _ => .ok 0)
        (fun s => s ++ "h") (fun _ => "pw8") 2024
        "SCH" none "" "admin" 9 [teacherDoc0] 0 0 [dupTeacherRow]).error_count = 1
    ∧ (bulkTeachersAux (fun s => .ok s) (fun s => .ok s) (fun _ => .ok 0)
        (fun s => s ++ "h") (fun _ => "pw8") 2024
        "SCH" none "" "admin" 9 [] 0 0 [badTeacherRow]).success_count = 1
    ∧ (bulkTeachersAux (fun s => Except.error ("invalid int " ++ s))
        (fun s => .ok s) (fun _ => .ok 0)
        (fun s => s ++ "h") (fun _ => "pw8") 2024
        "SCH" none "" "admin" 9 [] 0 0 [badIntTeacherRow]).errors
      = ["Row 2: invalid int abc"]
    ∧ bulkStudentsRowsAux (fun s => .ok s) (fun n => "STU" ++ toString n)
        (fun _ => "pw8") (fun s => s ++ "h") 9 0 [blankStudentRow]
      = ([], ["Row 2: Invalid email format: nan"])
    ∧ processStudentRow (fun s => Except.error ("bad float " ++ s)) "STU0"
        "pw8" (fun s => s ++ "h") 9 0 badFloatStudentRow
      = Except.error "Row 2: bad float abc"
    ∧ (mkStudentBulkDoc "STU0" "pw8" (fun s => s ++ "h") 9 "John" "j@k.co"
        "10" "A" "0" "0" goodStudentRow).lookup "student_id"
      = some (Val.str "STU0") := by
  refine ⟨?_, ?_, ?_, ?_, ?_, ?_, ?_⟩
  · exact (bulk_import_row_amended (fun s => .ok s) (fun s => .ok s)
      (fun _ => .ok 0) (fun s => s ++ "h")
      (fun _ => "pw8") (fun n => "STU" ++ toString n) (fun _ => "pw8") 2024
      "SCH" none "" "admin" 9 [] 0 0 blankTeacherRow []).1 rfl
  · have h := (bulk_import_row_amended (fun s => .ok s) (fun s => .ok s)
      (fun _ => .ok 0) (fun s => s ++ "h")
      (fun _ => "pw8") (fun n => "STU" ++ toString n) (fun _ => "pw8") 2024
      "SCH" none "" "admin" 9 [teacherDoc0] 0 0 dupTeacherRow []).2.1 rfl rfl
    rw [h]; rfl
  · have h := (bulk_import_row_amended (fun s => .ok s) (fun s => .ok s)
      (fun _ => .ok 0) (fun s => s ++ "h")
      (fun _ => "pw8") (fun n => "STU" ++ toString n) (fun _ => "pw8") 2024
      "SCH" none "" "admin" 9 [] 0 0 badTeacherRow []).2.2.1
      "0" none none rfl rfl rfl
    rw [h.2.2]; rfl
  · have h := (bulk_import_row_amended
      (fun s => Except.error ("invalid int " ++ s)) (fun s => .ok s)
      (fun _ => .ok 0) (fun s => s ++ "h")
      (fun _ => "pw8") (fun n => "STU" ++ toString n) (fun _ => "pw8") 2024
      "SCH" none "" "admin" 9 [] 0 0 badIntTeacherRow []).2.2.2.1
      "invalid int abc" rfl rfl rfl
    rw [h]; rfl
  · have h := (bulk_import_row_amended (fun s => .ok s) (fun s => .ok s)
      (fun _ => .ok 0) (fun s => s ++ "h")
      (fun _ => "pw8") (fun n => "STU" ++ toString n) (fun _ => "pw8") 2024
      "SCH" none "" "admin" 9 [] 0 0 blankStudentRow []).2.2.2.2.1
      "Row 2: Invalid email format: nan" rfl
    rw [h]; rfl
  · exact (bulk_import_row_amended
      (fun s => Except.error ("bad float " ++ s)) (fun s => Except.error ("bad float " ++ s))
      (fun _ => .ok 0) (fun s => s ++ "h")
      (fun _ => "pw8") (fun n => "STU" ++ toString n) (fun _ => "pw8") 2024
      "SCH" none "" "admin" 9 [] 0 0 badFloatStudentRow []).2.2.2.2.2.1
      "bad float abc" rfl rfl rfl
  · exact ((bulk_import_row_amended (fun s => .ok s) (fun s => .ok s)
      (fun _ => .ok 0) (fun s => s ++ "h")
      (fun _ => "pw8") (fun n => "STU" ++ toString n) (fun _ => "pw8") 2024
      "SCH" none "" "admin" 9 [] 0 0 goodStudentRow []).2.2.2.2.2.2
      (mkStudentBulkDoc "STU0" "pw8" (fun s => s ++ "h") 9 "John" "j@k.co"
        "10" "A" "0" "0" goodStudentRow) rfl).1

/-! ## Batched duplicate filtering (`students.py` 386-430) -/

/-- The stored email value of a document. -/
def emailVal (d : Doc) : Val := (d.lookup "email").getD .null

/-- Phase two of `bulk_import_students`: one `$in` query collects the stored
emails occurring among the parsed rows, rows whose email is in that set are
counted as duplicates, and the surviving rows are inserted with a single
`insert_many`.  Returns the new collection, the inserted count and the
duplicates count. -/
def bulkStudentsPhase2 (st : List Doc) (docs : List Doc) :
    List Doc × Nat × Nat :=
  let emails := docs.map emailVal
  let existing_emails :=
    (st.filter (fun s => emails.contains (emailVal s))).map emailVal
  let filtered := docs.filter (fun d => !(existing_emails.contains (emailVal d)))
  let dups := docs.filter (fun d => existing_emails.contains (emailVal d))
  (st ++ filtered, filtered.length, dups.length)

/-- For a parsed row, membership of its email in the batched query result is
the same as having a stored student with that email. -/
theorem existingEmails_contains (st docs : List Doc) (d : Doc)
    (hd : d ∈ docs) :
    ((st.filter (fun s => (docs.map emailVal).contains (emailVal s))).map
        emailVal).contains (emailVal d)
      = st.any (fun s => emailVal s == emailVal d) := by
  rw [Bool.eq_iff_iff]
  constructor
  · intro h
    rcases List.contains_iff_exists_mem_beq.mp h with ⟨v, hv, hbeq⟩
    rcases List.mem_map.mp hv with ⟨s, hs, hsv⟩
    rcases List.mem_filter.mp hs with ⟨hsst, _⟩
    refine List.any_eq_true.mpr ⟨s, hsst, ?_⟩
    rw [beq_iff_eq] at hbeq ⊢
    rw [hsv]
    exact hbeq.symm
  · intro h
    rcases List.any_eq_true.mp h with ⟨s, hs, hbeq⟩
    rw [beq_iff_eq] at hbeq
    refine List.contains_iff_exists_mem_beq.mpr
      ⟨emailVal s, ?_, by rw [beq_iff_eq, hbeq]⟩
    refine List.mem_map.mpr ⟨s, ?_, rfl⟩
    refine List.mem_filter.mpr ⟨hs, ?_⟩
    exact List.contains_iff_exists_mem_beq.mpr
      ⟨emailVal d, List.mem_map.mpr ⟨d, hd, rfl⟩, by rw [beq_iff_eq, hbeq]⟩

/-- C8: with `N` parsed rows of which exactly `M` carry an email already
stored in the students collection, the import inserts exactly `N - M` new
documents, reports `M` duplicates, and grows the collection by `N - M`. -/
theorem bulk_import_dups_spec (st docs : List Doc) :
    (bulkStudentsPhase2 st docs).2.1
        = docs.length
            - (docs.filter (fun d => st.any (fun s => emailVal s == emailVal d))).length
    ∧ (bulkStudentsPhase2 st docs).2.2
        = (docs.filter (fun d => st.any (fun s => emailVal s == emailVal d))).length
    ∧ (bulkStudentsPhase2 st docs).1.length
        = st.length
            + (docs.length
               - (docs.filter (fun d => st.any (fun s => emailVal s == emailVal d))).length) := by
  have h1 : docs.filter (fun d =>
        ((st.filter (fun s => (docs.map emailVal).contains (emailVal s))).map
          emailVal).contains (emailVal d))
      = docs.filter (fun d => st.any (fun s => emailVal s == emailVal d)) :=
    List.filter_congr (fun d hd => existingEmails_contains st docs d hd)
  have h2 : docs.filter (fun d =>
        !(((st.filter (fun s => (docs.map emailVal).contains (emailVal s))).map
          emailVal).contains (emailVal d)))
      = docs.filter (fun d => !(st.any (fun s => emailVal s == emailVal d))) :=
    List.filter_congr (fun d hd => by rw [existingEmails_contains st docs d hd])
  have hsum := List.length_eq_length_filter_add
    (l := docs) (fun d => st.any (fun s => emailVal s == emailVal d))
  refine ⟨?_, ?_, ?_⟩ <;>
    simp only [bulkStudentsPhase2, h1, h2, List.length_append] <;>
    omega

/-! ## Student listing and single get (`students.py` 69-138, 528-566) -/

/-- The `created_at` sort key of a stored document. -/
def createdAtOf (d : Doc) : Nat :=
  match d.lookup "created_at" with
  | some (.nat n) => n
  | _ => 0

/-- Insertion step of the newest-first sort. -/
def insertByCreatedDesc (d : Doc) : List Doc → List Doc
  | [] => [d]
  | e :: es =>
    if createdAtOf e < createdAtOf d then d :: e :: es
    else e :: insertByCreatedDesc d es

/-- `.sort('created_at', -1)`: newest first. -/
def sortByCreatedDesc : List Doc → List Doc
  | [] => []
  | d :: ds => insertByCreatedDesc d (sortByCreatedDesc ds)

/-- Case-insensitive substring test modelling the
`$regex ... $options i` search clauses. -/
def containsCI (needle hay : String) : Bool :=
  decide ((lowerStr needle).toList <:+: (lowerStr hay).toList)

/-- The `$or` search clause of `get_all_students`. -/
def studentSearchMatches (term : String) (d : Doc) : Bool :=
  containsCI term (getStr (d.lookup "name"))
    || containsCI term (getStr (d.lookup "roll_number"))
    || containsCI term (getStr (d.lookup "email"))
    || containsCI term (getStr (d.lookup "parent_name"))

/-- The query document built from the optional filters of
`get_all_students`. -/
def studentQueryMatches (classF sectionF statusF search : String) (d : Doc) :
    Bool :=
  (classF == "" || d.lookup "class" == some (.str classF))
    && (sectionF == "" || d.lookup "section" == some (.str sectionF))
    && (statusF == "" || d.lookup "status" == some (.str statusF))
    && (search == "" || studentSearchMatches search d)

/-- `str(ObjectId)` on the primary key. -/
def idToStr : Val → Val
  | .nat n => .str (toString n)
  | v => v

/-- `serialize_document`: stringify the `_id` value, touch nothing else. -/
def serialize_document (d : Doc) : Doc :=
  d.map (fun kv => if kv.1 == "_id" then (kv.1, idToStr kv.2) else kv)

/-- The pagination block of the listing response. -/
structure Pagination where
  page : Nat
  limit : Nat
  total : Nat
  pages : Nat
  deriving DecidableEq, Repr

/-- `get_all_students`: filter, count, newest-first sort, skip/limit page,
serialize.  No field of the stored documents is removed. -/
def get_all_students (st : List Doc) (page limit : Nat)
    (classF sectionF statusF search : String) : List Doc × Pagination :=
  let q := st.filter (studentQueryMatches classF sectionF statusF search)
  let total := q.length
  let pageDocs := ((sortByCreatedDesc q).drop ((page - 1) * limit)).take limit
  (pageDocs.map serialize_document,
   ⟨page, limit, total, (total + limit - 1) / limit⟩)

/-- `get_student`: resolve by business id with primary-key fallback, pop
`hashed_password`, serialize. -/
def get_student (st : List Doc) (sid : String) : Option Doc :=
  (findStudentDoc st sid).map
    (fun s => serialize_document (s.filter (fun kv => kv.1 != "hashed_password")))

/-- `lookup` at a matching head. -/
theorem lookup_cons_self {β : Type} (k : String) (v : β)
    (rest : List (String × β)) :
    List.lookup k ((k, v) :: rest) = some v := by
  simp [List.lookup]

/-- `lookup` past a non-matching head. -/
theorem lookup_cons_ne {β : Type} (k k1 : String) (v : β)
    (rest : List (String × β)) (h : (k == k1) = false) :
    List.lookup k ((k1, v) :: rest) = List.lookup k rest := by
  simp [List.lookup, h]

/-- One unfolding step of `serialize_document`. -/
theorem serialize_document_cons (k1 : String) (v1 : Val) (rest : Doc) :
    serialize_document ((k1, v1) :: rest)
      = (if k1 == "_id" then (k1, idToStr v1) else (k1, v1))
          :: serialize_document rest := by
  simp [serialize_document]

/-- Serialization preserves the lookup of every key other than `_id`. -/
theorem lookup_serialize_document (d : Doc) (k : String) (hk : k ≠ "_id") :
    (serialize_document d).lookup k = d.lookup k := by
  induction d with
  | nil => rfl
  | cons kv rest ih =>
    rcases kv with ⟨k1, v1⟩
    rw [serialize_document_cons]
    by_cases h1 : k1 = "_id"
    · have hne : (k == k1) = false :=
        beq_eq_false_iff_ne.mpr (fun hh => hk (hh.trans h1))
      rw [if_pos (beq_iff_eq.mpr h1), lookup_cons_ne _ _ _ _ hne,
          lookup_cons_ne _ _ _ _ hne]
      exact ih
    · by_cases hke : k = k1
      · subst hke
        rw [if_neg (by simp [h1]), lookup_cons_self, lookup_cons_self]
      · have hne : (k == k1) = false := beq_eq_false_iff_ne.mpr hke
        rw [if_neg (by simp [h1]), lookup_cons_ne _ _ _ _ hne,
            lookup_cons_ne _ _ _ _ hne]
        exact ih

/-- Popping a key removes it from every later lookup. -/
theorem lookup_filter_pop (d : Doc) (k : String) :
    (d.filter (fun kv => kv.1 != k)).lookup k = none := by
  induction d with
  | nil => rfl
  | cons kv rest ih =>
    rcases kv with ⟨k1, v1⟩
    rw [List.filter_cons]
    by_cases h : k1 = k
    · rw [if_neg (by simp [h])]
      exact ih
    · rw [if_pos (by simp [h]),
          lookup_cons_ne _ _ _ _ (beq_eq_false_iff_ne.mpr (Ne.symm h))]
      exact ih

/-- Popping one key leaves every other lookup unchanged. -/
theorem lookup_filter_pop_other (d : Doc) (k other : String)
    (hne : other ≠ k) :
    (d.filter (fun kv => kv.1 != k)).lookup other = d.lookup other := by
  induction d with
  | nil => rfl
  | cons kv rest ih =>
    rcases kv with ⟨k1, v1⟩
    rw [List.filter_cons]
    by_cases h : k1 = k
    · have ho : (other == k1) = false :=
        beq_eq_false_iff_ne.mpr (fun hh => hne (hh.trans h))
      rw [if_neg (by simp [h]), lookup_cons_ne _ _ _ _ ho]
      exact ih
    · by_cases hko : other = k1
      · subst hko
        rw [if_pos (by simp [h]), lookup_cons_self, lookup_cons_self]
      · have ho : (other == k1) = false := beq_eq_false_iff_ne.mpr hko
        rw [if_pos (by simp [h]), lookup_cons_ne _ _ _ _ ho,
            lookup_cons_ne _ _ _ _ ho]
        exact ih

/-- Membership is preserved by the insertion sort. -/
theorem mem_insertByCreatedDesc (d x : Doc) (l : List Doc) :
    x ∈ insertByCreatedDesc d l ↔ x = d ∨ x ∈ l := by
  induction l with
  | nil => simp [insertByCreatedDesc]
  | cons e es ih =>
    by_cases h : createdAtOf e < createdAtOf d
    · simp [insertByCreatedDesc, h]
    · simp [insertByCreatedDesc, h, ih]
      tauto

/-- Membership is preserved by the newest-first sort. -/
theorem mem_sortByCreatedDesc (x : Doc) (l : List Doc) :
    x ∈ sortByCreatedDesc l ↔ x ∈ l := by
  induction l with
  | nil => simp [sortByCreatedDesc]
  | cons d ds ih =>
    simp [sortByCreatedDesc, mem_insertByCreatedDesc, ih]

/-- The student document inserted by `add_student` (`students.py` 193-220):
generated business id, lower-cased email, bcrypt hash plus the plaintext
initial password stored side by side, and both timestamps stamped.  The
`float(...)` conversions keep their raw payloads as in the bulk model. -/
def mkStudentDoc (genId genPw : String) (bcryptHash : String → String)
    (now : Nat) (data : Doc) : Doc :=
  [("student_id", .str genId),
   ("name", .str (pyStrip (getStr (data.lookup "name")))),
   ("email", .str (lowerStr (pyStrip (getStr (data.lookup "email"))))),
   ("phone", .str (pyStrip (getStr (data.lookup "phone")))),
   ("roll_number", (data.lookup "roll_number").getD (.str genId)),
   ("class", .str (pyStrip (getStr (data.lookup "class")))),
   ("section", .str (pyStrip (getStr (data.lookup "section")))),
   ("date_of_birth", (data.lookup "date_of_birth").getD (.str "")),
   ("gender", (data.lookup "gender").getD (.str "")),
   ("address", (data.lookup "address").getD (.str "")),
   ("parent_name", (data.lookup "parent_name").getD (.str "")),
   ("parent_phone", (data.lookup "parent_phone").getD (.str "")),
   ("parent_email", (data.lookup "parent_email").getD (.str "")),
   ("parent_occupation", (data.lookup "parent_occupation").getD (.str "")),
   ("blood_group", (data.lookup "blood_group").getD (.str "")),
   ("medical_conditions", (data.lookup "medical_conditions").getD (.str "")),
   ("admission_date", (data.lookup "admission_date").getD (.str (toString now))),
   ("attendance", (data.lookup "attendance").getD (.str "0")),
   ("performance", (data.lookup "performance").getD (.str "0")),
   ("status", (data.lookup "status").getD (.str "active")),
   ("hashed_password", .str (bcryptHash genPw)),
   ("initial_password", .str genPw),
   ("profile_image", (data.lookup "profile_image").getD (.str "")),
   ("created_by", (data.lookup "created_by").getD (.str "admin")),
   ("created_at", .nat now),
   ("updated_at", .nat now)]

/-- C10: every document of the list-students response carries the stored
credential fields unstripped - the lookups of `hashed_password` and
`initial_password` are those of a stored document - while the single-student
get removes `hashed_password` but still carries `initial_password`. -/
theorem credential_leak_spec (st : List Doc) (page limit : Nat)
    (classF sectionF statusF search : String) (sid : String) :
    (∀ d ∈ (get_all_students st page limit classF sectionF statusF search).1,
      ∃ d0 ∈ st,
        d.lookup "hashed_password" = d0.lookup "hashed_password"
        ∧ d.lookup "initial_password" = d0.lookup "initial_password")
    ∧ (∀ s0, findStudentDoc st sid = some s0 →
        get_student st sid
          = some (serialize_document
              (s0.filter (fun kv => kv.1 != "hashed_password")))
        ∧ ((get_student st sid).getD []).lookup "hashed_password" = none
        ∧ ((get_student st sid).getD []).lookup "initial_password"
            = s0.lookup "initial_password") := by
  constructor
  · intro d hd
    simp only [get_all_students] at hd
    rcases List.mem_map.mp hd with ⟨d0, hd0, rfl⟩
    have h1 : d0 ∈ (sortByCreatedDesc
        (st.filter (studentQueryMatches classF sectionF statusF search))).drop
          ((page - 1) * limit) :=
      List.take_subset _ _ hd0
    have h2 : d0 ∈ sortByCreatedDesc
        (st.filter (studentQueryMatches classF sectionF statusF search)) :=
      List.drop_subset _ _ h1
    have h3 : d0 ∈ st.filter (studentQueryMatches classF sectionF statusF search) :=
      (mem_sortByCreatedDesc _ _).mp h2
    exact ⟨d0, (List.mem_filter.mp h3).1,
      lookup_serialize_document d0 "hashed_password" (by decide),
      lookup_serialize_document d0 "initial_password" (by decide)⟩
  · intro s0 hs0
    have hg : get_student st sid
        = some (serialize_document
            (s0.filter (fun kv => kv.1 != "hashed_password"))) := by
      simp [get_student, hs0]
    refine ⟨hg, ?_, ?_⟩
    · rw [hg]
      simp only [Option.getD_some]
      rw [lookup_serialize_document _ _ (by decide), lookup_filter_pop]
    · rw [hg]
      simp only [Option.getD_some]
      rw [lookup_serialize_document _ _ (by decide),
          lookup_filter_pop_other _ _ _ (by decide)]

/-- A stored student document created through the single-add path. -/
def sampleStudentDoc : Doc :=
  mkStudentDoc "STU9" "pw9" (fun s => s ++ "h") 5
    [("name", Val.str "Amy"), ("email", Val.str "amy@k.co"),
     ("class", Val.str "10"), ("section", Val.str "A")]

/-- A one-student collection. -/
def sampleStudentDb : List Doc := [sampleStudentDoc]

/-- Witness for C10: on a one-student collection the listing response
contains the document with both credential fields present, and the single
get of the same student hides the hash but returns the plaintext initial
password. -/
theorem credential_leak_spec_witness :
    (serialize_document sampleStudentDoc
        ∈ (get_all_students sampleStudentDb 1 10 "" "" "" "").1
      ∧ ∃ d0 ∈ sampleStudentDb,
          (serialize_document sampleStudentDoc).lookup "hashed_password"
              = d0.lookup "hashed_password"
          ∧ (serialize_document sampleStudentDoc).lookup "initial_password"
              = d0.lookup "initial_password")
    ∧ (findStudentDoc sampleStudentDb "STU9" = some sampleStudentDoc
      ∧ ((get_student sampleStudentDb "STU9").getD []).lookup "hashed_password"
          = none
      ∧ ((get_student sampleStudentDb "STU9").getD []).lookup "initial_password"
          = some (Val.str "pw9")) :=
  ⟨⟨by decide,
    (credential_leak_spec sampleStudentDb 1 10 "" "" "" "" "STU9").1 _ (by decide)⟩,
   ⟨by decide,
    ((credential_leak_spec sampleStudentDb 1 10 "" "" "" "" "STU9").2
       sampleStudentDoc (by decide)).2.1,
    by
      have h := ((credential_leak_spec sampleStudentDb 1 10 "" "" "" "" "STU9").2
        sampleStudentDoc (by decide)).2.2
      rw [h]; rfl⟩⟩

/-! ## Teacher login (`teachers.py` 314-415) -/

/-- Outcome of `POST /api/teachers/login`.  The success payload (token,
profile, school info) is abstracted to the teacher id; the `last_login`
write happens only after a successful password check, so the failure
responses modelled here involve no state change. -/
inductive LoginOutcome where
  | badRequest
  | invalidCredentials
  | accountInactive
  | ok (teacherId : Nat)
  deriving DecidableEq, Repr

/-- HTTP status paired with each login outcome. -/
def loginHttpStatus : LoginOutcome → Nat
  | .badRequest => 400
  | .invalidCredentials => 401
  | .accountInactive => 403
  | .ok _ => 200

/-- Error string of each failing login outcome. -/
def loginErrorMessage : LoginOutcome → Option String
  | .badRequest => some "Email and password are required"
  | .invalidCredentials => some "Invalid credentials"
  | .accountInactive => some "Your account is not active"
  | .ok _ => none

/-- `teacher_login`: lower-case and strip the email, strip the password,
look the teacher up by email, check the password through bcrypt (`checkpw`
stands for `bcrypt.checkpw`; `check_password` maps any exception to a
non-match), then the active-status gate.  The unknown-email and
wrong-password paths produce the same outcome value. -/
def teacher_login (checkpw : String → String → Bool) (st : List Doc)
    (emailIn pwIn : String) : LoginOutcome :=
  let email := pyStrip (lowerStr emailIn)
  let password := pyStrip pwIn
  if email == "" || password == "" then .badRequest
  else
    match st.find? (fun d => d.lookup "email" == some (.str email)) with
    | none => .invalidCredentials
    | some t =>
      if !(checkpw password (getStr (t.lookup "password"))) then
        .invalidCredentials
      else if t.lookup "status" != some (.str "active") then .accountInactive
      else .ok (match t.lookup "_id" with | some (.nat n) => n | _ => 0)

/-- C9: a login with a wrong password produces the identical
401 `Invalid credentials` response whether the email belongs to a stored
teacher or to nobody, so the response does not reveal whether the email
exists. -/
theorem login_indistinguishable_spec (checkpw : String → String → Bool)
    (st1 st2 : List Doc) (emailIn pwIn : String) (t : Doc)
    (hne : (pyStrip (lowerStr emailIn) == "" || pyStrip pwIn == "") = false)
    (h1 : st1.find? (fun d =>
        d.lookup "email" == some (.str (pyStrip (lowerStr emailIn)))) = none)
    (h2 : st2.find? (fun d =>
        d.lookup "email" == some (.str (pyStrip (lowerStr emailIn)))) = some t)
    (h3 : checkpw (pyStrip pwIn) (getStr (t.lookup "password")) = false) :
    teacher_login checkpw st1 emailIn pwIn = LoginOutcome.invalidCredentials
    ∧ teacher_login checkpw st2 emailIn pwIn = LoginOutcome.invalidCredentials
    ∧ teacher_login checkpw st1 emailIn pwIn
        = teacher_login checkpw st2 emailIn pwIn
    ∧ loginHttpStatus (teacher_login checkpw st1 emailIn pwIn) = 401
    ∧ loginErrorMessage (teacher_login checkpw st1 emailIn pwIn)
        = some "Invalid credentials" := by
  have e1 : teacher_login checkpw st1 emailIn pwIn
      = LoginOutcome.invalidCredentials := by
    simp [teacher_login, hne, h1]
  have e2 : teacher_login checkpw st2 emailIn pwIn
      = LoginOutcome.invalidCredentials := by
    simp [teacher_login, hne, h2, h3]
  exact ⟨e1, e2, by rw [e1, e2], by rw [e1]; rfl, by rw [e1]; rfl⟩

/-- Witness for C9: the empty collection versus a collection holding the
probed email, with a bcrypt check that rejects the submitted password. -/
theorem login_indistinguishable_spec_witness :
    teacher_login (fun _ _ => false) [] "T@X.CO" "wrong"
        = LoginOutcome.invalidCredentials
    ∧ teacher_login (fun _ _ => false) [teacherDoc0] "T@X.CO" "wrong"
        = LoginOutcome.invalidCredentials
    ∧ teacher_login (fun _ _ => false) [] "T@X.CO" "wrong"
        = teacher_login (fun _ _ => false) [teacherDoc0] "T@X.CO" "wrong" :=
  have h := login_indistinguishable_spec (fun _ _ => false) [] [teacherDoc0]
    "T@X.CO" "wrong" teacherDoc0 (by decide) (by decide) (by decide) rfl
  ⟨h.1, h.2.1, h.2.2.1⟩

/-! ## Email dispatch and logging (`school_contact.py` 564-723,
`email_service.py` 301-533) -/

/-- Outcome of the SMTP transaction, standing for the exception structure
of the `try` around `server.send_message`. -/
inductive SmtpOutcome where
  | sent
  | authFailed
  | smtpFailed (msg : String)
  | otherFailed (msg : String)
  deriving DecidableEq, Repr

/-- A document of the `email_logs` collection as written by the
`school_contact.py` route. -/
structure ScEmailLog where
  to_email : String
  subject : String
  message : String
  sent_at : Nat
  status : String
  deriving DecidableEq, Repr

/-- The body of `POST /admin/send-email`. -/
structure ScSendReq where
  to_email : String
  subject : String
  message : String
  deriving DecidableEq, Repr

/-- The admin `send_email` route of `school_contact.py`: configuration
check, field check, transport; a log document is inserted only in the
success branch - every failure branch returns without touching
`email_logs`. -/
def scSendEmail (smtpConfigured : Bool) (outcome : SmtpOutcome)
    (req : ScSendReq) (logs : List ScEmailLog) (now : Nat) :
    ApiResp × List ScEmailLog :=
  if !smtpConfigured then
    (⟨500, false, "Email server configuration is incomplete"⟩, logs)
  else if req.to_email == "" || req.subject == "" || req.message == "" then
    (⟨400, false, "Missing required email fields"⟩, logs)
  else
    match outcome with
    | .sent =>
      (⟨200, true, "Email sent successfully"⟩,
       logs ++ [⟨req.to_email, req.subject, req.message, now, "sent"⟩])
    | .authFailed =>
      (⟨500, false,
        "Email server authentication failed. Check your credentials."⟩, logs)
    | .smtpFailed msg =>
      (⟨500, false, "Failed to send email: " ++ msg⟩, logs)
    | .otherFailed msg =>
      (⟨500, false, "Failed to send email: " ++ msg⟩, logs)

/-- A document of the `email_logs` collection as written by
`email_service.py` (the `ip_address` request metadata and the 200-character
truncation of the preview are elided; the dedicated approval endpoint logs
no preview). -/
structure EsEmailLog where
  to_email : String
  subject : String
  institution_name : String
  email_type : String
  status : String
  timestamp : Nat
  content_preview : Option String
  deriving DecidableEq, Repr

/-- Substring test used for the subject sniffing. -/
def containsSub (needle hay : String) : Bool :=
  decide (needle.toList <:+: hay.toList)

/-- `str.capitalize` on ASCII. -/
def pyCapitalize (s : String) : String :=
  match s.toList with
  | [] => ""
  | c :: rest => String.mk (upperAscii c :: rest.map lowerAscii)

/-- Email-type classification of `email_service.send_email`
(lines 316-321). -/
def emailTypeOf (reqType subject : String) : String :=
  if containsSub "approval" (lowerStr subject)
      || containsSub "approved" (lowerStr subject) then "approval"
  else if containsSub "rejection" (lowerStr subject)
      || containsSub "rejected" (lowerStr subject)
      || containsSub "not approved" (lowerStr subject) then "rejection"
  else reqType

/-- `email_service.send_email` (lines 301-367): attempt the transport, then
- when Mongo is connected - append one log whose status flag is `sent` or
`failed` according to the outcome, then answer 200 or 500. -/
def esSendEmail (mongoConnected success : Bool)
    (toEmail subject message institutionName reqType : String)
    (logs : List EsEmailLog) (now : Nat) : ApiResp × List EsEmailLog :=
  let etype := emailTypeOf reqType subject
  let logs2 :=
    if mongoConnected then
      logs ++ [⟨toEmail, subject, institutionName, etype,
                if success then "sent" else "failed", now, some message⟩]
    else logs
  if success then
    (⟨200, true, pyCapitalize etype ++ " email sent successfully"⟩, logs2)
  else (⟨500, false, "Failed to send email"⟩, logs2)

/-- `email_service.send_approval_email` (lines 369-446): the log insert is
guarded by `mongo_connected and success`, so a failed attempt writes no
log at all. -/
def esSendApprovalEmail (mongoConnected success : Bool)
    (toEmail institutionName : String) (logs : List EsEmailLog) (now : Nat) :
    ApiResp × List EsEmailLog :=
  let logs2 :=
    if mongoConnected && success then
      logs ++ [⟨toEmail, "IntelliLearn Account Approved - " ++ institutionName,
                institutionName, "approval", "sent", now, none⟩]
    else logs
  if success then (⟨200, true, "Approval email sent successfully"⟩, logs2)
  else (⟨500, false, "Failed to send approval email"⟩, logs2)

/-- C5 fails on the code: a failed send through `send_approval_email`
appends zero records to `email_logs` (the insert is guarded by `success`),
and a failed send through the admin route of `school_contact.py` likewise
appends zero records - the claim demands exactly one record per attempt. -/
theorem email_log_cex :
    (esSendApprovalEmail true false "p@q.co" "Inst" [] 7).2 = []
    ∧ (scSendEmail true SmtpOutcome.authFailed ⟨"a@b.co", "S", "M"⟩ [] 7).2 = []
    ∧ (scSendEmail true (SmtpOutcome.smtpFailed "boom") ⟨"a@b.co", "S", "M"⟩ [] 7).2
        = [] := by
  exact ⟨rfl, rfl, rfl⟩

/-- C5 amended: the generic `email_service` send endpoint appends exactly
one log per attempt with the status flag reflecting the outcome (given a
connected Mongo); but the admin send route of `school_contact.py` and the
dedicated approval endpoint append a log only for successful sends - failed
attempts there leave `email_logs` untouched. -/
theorem email_log_amended (mongoConnected success : Bool)
    (toEmail subject message institutionName reqType : String)
    (req : ScSendReq) (sclogs : List ScEmailLog) (eslogs : List EsEmailLog)
    (now : Nat) :
    (mongoConnected = true →
      (esSendEmail mongoConnected success toEmail subject message
          institutionName reqType eslogs now).2
        = eslogs ++ [⟨toEmail, subject, institutionName,
            emailTypeOf reqType subject,
            if success then "sent" else "failed", now, some message⟩])
    ∧ ((req.to_email == "" || req.subject == "" || req.message == "") = false →
        (scSendEmail true SmtpOutcome.sent req sclogs now).2
          = sclogs ++ [⟨req.to_email, req.subject, req.message, now, "sent"⟩])
    ∧ (scSendEmail true SmtpOutcome.authFailed req sclogs now).2 = sclogs
    ∧ (∀ m, (scSendEmail true (SmtpOutcome.smtpFailed m) req sclogs now).2 = sclogs)
    ∧ (∀ m, (scSendEmail true (SmtpOutcome.otherFailed m) req sclogs now).2 = sclogs)
    ∧ (esSendApprovalEmail mongoConnected false toEmail institutionName
        eslogs now).2 = eslogs := by
  refine ⟨?_, ?_, ?_, ?_, ?_, ?_⟩
  · intro h
    cases success <;> simp [esSendEmail, h]
  · intro h
    simp [scSendEmail, h]
  · by_cases h : (req.to_email == "" || req.subject == "" || req.message == "")
      <;> simp [scSendEmail, h]
  · intro m
    by_cases h : (req.to_email == "" || req.subject == "" || req.message == "")
      <;> simp [scSendEmail, h]
  · intro m
    by_cases h : (req.to_email == "" || req.subject == "" || req.message == "")
      <;> simp [scSendEmail, h]
  · cases mongoConnected <;> simp [esSendApprovalEmail]

/-- Witness for the amended C5: a failed and a successful attempt through
the generic endpoint each append one log with the matching flag, a
successful admin-route send appends one `sent` log. -/
theorem email_log_amended_witness :
    (esSendEmail true false "a@b.co" "Hello" "M" "Inst" "general" [] 7).2
      = [⟨"a@b.co", "Hello", "Inst", "general", "failed", 7, some "M"⟩]
    ∧ (esSendEmail true true "a@b.co" "Hello" "M" "Inst" "general" [] 7).2
      = [⟨"a@b.co", "Hello", "Inst", "general", "sent", 7, some "M"⟩]
    ∧ (scSendEmail true SmtpOutcome.sent ⟨"a@b.co", "S", "M"⟩ [] 7).2
      = [⟨"a@b.co", "S", "M", 7, "sent"⟩] :=
  ⟨(email_log_amended true false "a@b.co" "Hello" "M" "Inst" "general"
      ⟨"a@b.co", "S", "M"⟩ [] [] 7).1 rfl,
   (email_log_amended true true "a@b.co" "Hello" "M" "Inst" "general"
      ⟨"a@b.co", "S", "M"⟩ [] [] 7).1 rfl,
   (email_log_amended true true "a@b.co" "Hello" "M" "Inst" "general"
      ⟨"a@b.co", "S", "M"⟩ [] [] 7).2.1 (by decide)⟩

/-! ## Institution credential dispatch (`school_contact.py` 806-878) -/

/-- The names defined at module level in `school_contact.py` (its own
definitions and its imports).  Neither `db` nor `generate_secure_password`
nor `bcrypt` is among them. -/
def schoolContactModuleGlobals : List String :=
  ["school_contact_bp", "MONGO_URI", "DATABASE_NAME", "get_mongo_client",
   "get_db", "close_mongo_client", "validate_email", "serialize_document",
   "add_cors_headers", "create_school_contact", "get_school_contacts",
   "get_pending_contacts", "approve_contact", "reject_contact",
   "review_contact", "activate_contact", "deactivate_contact", "send_email",
   "get_approved_institutions", "update_institution_status",
   "send_institution_credentials", "Blueprint", "request", "jsonify",
   "make_response", "datetime", "re", "os", "MongoClient", "ObjectId",
   "smtplib", "MIMEText", "MIMEMultipart", "Header"]

/-- Outcome of `POST .../send-credentials`. -/
inductive CredsResult where
  | internalError (msg : String)
  | notFound
  | sent (password : String)
  deriving DecidableEq, Repr

/-- HTTP status paired with each outcome. -/
def credsHttpStatus : CredsResult → Nat
  | .internalError _ => 500
  | .notFound => 404
  | .sent _ => 200

/-- `send_institution_credentials`: the body starts by evaluating the
module global `db`, and later `generate_secure_password` and `bcrypt`;
evaluating a name missing from the module namespace raises a `NameError`,
which the enclosing `except` converts into a 500 response.  The intended
logic - 404 for an unresolved id, password regeneration, persistence and
email dispatch otherwise (the fresh draw stands in for
`generate_secure_password`) - is reachable only when those names exist. -/
def send_institution_credentials (st : List Contact) (iid : Nat)
    (newPassword : String) : CredsResult × List Contact :=
  if !(schoolContactModuleGlobals.contains "db") then
    (.internalError "NameError: name db is not defined", st)
  else
    match st.find? (fun c => c.id == iid) with
    | none => (.notFound, st)
    | some _ =>
      if !(schoolContactModuleGlobals.contains "generate_secure_password") then
        (.internalError "NameError: name generate_secure_password is not defined", st)
      else if !(schoolContactModuleGlobals.contains "bcrypt") then
        (.internalError "NameError: name bcrypt is not defined", st)
      else
        let r := updateOneContact st iid
          (fun c => { c with initial_password := some newPassword })
        (.sent newPassword, r.1)

/-- C6 is right about the intent but the code is broken: for every state
and every institution id - resolving or not - the handler answers 500 with
a `NameError`, because `db` is not defined in the module namespace; the
404 branch and the whole credential path are unreachable. -/
theorem send_credentials_bug (st : List Contact) (iid : Nat) (pw : String) :
    (send_institution_credentials st iid pw).1
        = CredsResult.internalError "NameError: name db is not defined"
    ∧ credsHttpStatus (send_institution_credentials st iid pw).1 = 500
    ∧ (send_institution_credentials st iid pw).2 = st := by
  have h : "db" ∉ schoolContactModuleGlobals := by decide
  refine ⟨?_, ?_, ?_⟩ <;> simp [send_institution_credentials, h, credsHttpStatus]

/-! ## The `updated_at` stamp discipline (C2) -/

/-- The owning school record as touched by the roster side effects. -/
structure SchoolRec where
  id : Nat
  school_name : String
  student_count : Nat
  teachers : List String
  updated_at : Nat
  deriving DecidableEq, Repr

/-- The side-effect write of `add_student` to the owning school
(`students.py` 226-231): `$inc student_count` and nothing else. -/
def incStudentCount (sc : SchoolRec) : SchoolRec :=
  { sc with student_count := sc.student_count + 1 }

/-- The side-effect write of `register_teacher` (`teachers.py` 284-288):
`$push` of the new teacher id and nothing else. -/
def pushTeacher (teacherId : String) (sc : SchoolRec) : SchoolRec :=
  { sc with teachers := sc.teachers ++ [teacherId] }

/-- The side-effect write of `delete_teacher` (`teachers.py` 726-730):
`$pull` of the teacher id and nothing else. -/
def pullTeacher (teacherId : String) (sc : SchoolRec) : SchoolRec :=
  { sc with teachers := sc.teachers.filter (fun t => t != teacherId) }

/-- A concrete school record last updated at time 0. -/
def sampleSchool : SchoolRec := ⟨3, "Green Valley", 10, ["t1"], 0⟩

/-- C2 fails on the code: at the concrete input where `add_student` (or
`register_teacher`) runs at time 1 against a school record last stamped at
time 0, the side-effect write to the owning school record does not set its
`updated_at` to the current time. -/
theorem updated_at_cex :
    (incStudentCount sampleSchool).updated_at ≠ 1
    ∧ (pushTeacher "t9" sampleSchool).updated_at ≠ 1 := by decide

/-- C2 amended: every modelled admin write to the primary record stamps
`updated_at` with the current time - the approval `$set`, the inserted
student documents (single and bulk), the inserted bulk teacher document and
the teacher update `$set` - but the side-effect writes to the owning school
record (`$inc student_count`, `$push`/`$pull` of the teachers list) leave
the school record's `updated_at` unchanged. -/
theorem updated_at_amended :
    (∀ (now : Nat) (pw : String) (req : ApproveReq) (c : Contact),
      (applyApprove now pw req c).updated_at = now)
    ∧ (∀ (g p : String) (b : String → String) (now : Nat) (data : Doc),
        (mkStudentDoc g p b now data).lookup "updated_at"
          = some (Val.nat now))
    ∧ (∀ (g p : String) (b : String → String) (now : Nat)
        (n e c s att perf : String) (row : Row),
        (mkStudentBulkDoc g p b now n e c s att perf row).lookup "updated_at"
          = some (Val.nat now))
    ∧ (∀ (b : String → String) (year : Nat)
        (sc : String) (sid : Option String) (sn cb : String) (cnt : Nat)
        (tp : String) (now : Nat) (em exp : String) (dob : Option Nat)
        (sal : Option String) (row : Row),
        (mkTeacherBulkDoc b year sc sid sn cb cnt tp now em exp dob
            sal row).lookup "updated_at" = some (Val.nat now))
    ∧ (∀ (stp : String → Nat) (allowed : List String) (data : Doc)
        (now : Nat),
        ("updated_at", Val.nat now) ∈ buildTeacherUpdate stp allowed data now)
    ∧ (∀ (data : Doc) (now : Nat),
        ("updated_at", Val.nat now)
          ∈ buildStudentUpdate data ++ [("updated_at", Val.nat now)])
    ∧ (∀ sc : SchoolRec, (incStudentCount sc).updated_at = sc.updated_at)
    ∧ (∀ (tid : String) (sc : SchoolRec),
        (pushTeacher tid sc).updated_at = sc.updated_at)
    ∧ (∀ (tid : String) (sc : SchoolRec),
        (pullTeacher tid sc).updated_at = sc.updated_at) := by
  refine ⟨fun _ _ _ _ => rfl, fun _ _ _ _ _ => rfl,
    fun _ _ _ _ _ _ _ _ _ _ _ => rfl,
    fun _ _ _ _ _ _ _ _ _ _ _ _ _ _ => rfl,
    ?_, ?_, fun _ => rfl, fun _ _ => rfl, fun _ _ => rfl⟩
  · intro stp allowed data now
    exact List.mem_append_right _ (by simp [buildTeacherUpdate])
  · intro data now
    exact List.mem_append_right _ (by simp)
